import Mathlib

/-!
# Ingress operator reconciler

A shallow embedding of
`control-plane-operator/controllers/hostedcontrolplane/ingressoperator/ingressoperator.go`
and the properties of its deployment reconciler.

Conventions of the embedding.

* A Go `map[string]V` is `GoMap V`: `none` is the nil map, `some m` an allocated
  map `m : Finmap`.  Reading the length of a nil map gives `0`, writing to it
  panics (the write returns `none`).
* A Go slice is a `List`; the nil slice and the empty slice are both `[]`.
  `s[0]` on an empty slice panics (`none`).
* A Go pointer to a scalar or struct is an `Option`.
* A function that can panic returns `Option`; `none` is the panic.
* Code of other packages (helpers, constants, the environment) is not part of
  this file's source.  It is collected in the record `Ext` and every definition
  takes it as a parameter.
-/

namespace IngressOperator

/-! ## Go maps -/

/-- A Go `map[string]V`. -/
abbrev GoMap (V : Type) := Option (Finmap (fun _ : String => V))

/-- The builtin `len(m)`. -/
def GoMap.len {V : Type} (m : GoMap V) : Nat :=
  match m with
  | none => 0
  | some f => f.keys.card

/-- The statement `m[k] = v`; `none` is the panic of a write to the nil map. -/
def GoMap.set {V : Type} (m : GoMap V) (k : String) (v : V) : Option (GoMap V) :=
  match m with
  | none => none
  | some f => some (some (f.insert k v))

/-- The expression `m[k]` in its two-valued form. -/
def GoMap.get {V : Type} (m : GoMap V) (k : String) : Option V :=
  match m with
  | none => none
  | some f => f.lookup k

/-- A map literal `map[string]V{k1: v1, ...}`. -/
def GoMap.lit {V : Type} (kvs : List (String × V)) : GoMap V :=
  some (kvs.foldl (fun f kv => f.insert kv.1 kv.2) ∅)

/-- The guard `if m == nil { m = map[string]V{} }`. -/
def GoMap.orEmpty {V : Type} (m : GoMap V) : GoMap V :=
  match m with
  | none => some ∅
  | some f => some f

/-- The writes `m[k1] = v1; ...` of a list of pairs into a map, which is
allocated first when it is nil; with no pair to write the map is left as it is. -/
def GoMap.insertAll {V : Type} (m : GoMap V) (kvs : List (String × V)) : GoMap V :=
  match kvs with
  | [] => m
  | _ :: _ => some (kvs.foldl (fun f kv => f.insert kv.1 kv.2) (m.getD ∅))

/-! ## Kubernetes API types (the fields this package reads or writes) -/

/-- A `resource.Quantity`, kept as the text it was parsed from. -/
structure Quantity where
  text : String
deriving DecidableEq, Repr

/-- The parser `resource.MustParse`. -/
def MustParse (s : String) : Quantity := ⟨s⟩

/-- A `corev1.ResourceList`. -/
abbrev ResourceList := GoMap Quantity

/-- The name `corev1.ResourceCPU`. -/
def ResourceCPU : String := "cpu"

/-- The name `corev1.ResourceMemory`. -/
def ResourceMemory : String := "memory"

/-- The policy `corev1.PullIfNotPresent`. -/
def PullIfNotPresent : String := "IfNotPresent"

/-- The policy `corev1.TerminationMessageFallbackToLogsOnError`. -/
def TerminationMessageFallbackToLogsOnError : String := "FallbackToLogsOnError"

/-- The strategy `appsv1.RecreateDeploymentStrategyType`. -/
def RecreateDeploymentStrategyType : String := "Recreate"

/-- The strategy `appsv1.RollingUpdateDeploymentStrategyType`. -/
def RollingUpdateDeploymentStrategyType : String := "RollingUpdate"

/-- A `corev1.ResourceRequirements`. -/
structure ResourceRequirements where
  Limits : ResourceList := none
  Requests : ResourceList := none
deriving DecidableEq

/-- A `corev1.EnvVar`. -/
structure EnvVar where
  Name : String
  Value : String := ""
deriving DecidableEq, Repr

/-- A `corev1.VolumeMount`. -/
structure VolumeMount where
  Name : String
  ReadOnly : Bool := false
  MountPath : String := ""
  SubPath : String := ""
deriving DecidableEq, Repr

/-- A `corev1.ContainerPort`. -/
structure ContainerPort where
  Name : String := ""
  ContainerPort : Int := 0
deriving DecidableEq, Repr

/-- A `corev1.Container`. -/
structure Container where
  Name : String := ""
  Image : String := ""
  Command : List String := []
  Args : List String := []
  Ports : List ContainerPort := []
  Env : List EnvVar := []
  Resources : ResourceRequirements := {}
  VolumeMounts : List VolumeMount := []
  TerminationMessagePolicy : String := ""
  ImagePullPolicy : String := ""
deriving DecidableEq

/-- A `corev1.KeyToPath`. -/
structure KeyToPath where
  Key : String
  Path : String
deriving DecidableEq, Repr

/-- A `corev1.SecretVolumeSource`. -/
structure SecretVolumeSource where
  SecretName : String := ""
  DefaultMode : Option Int := none
deriving DecidableEq, Repr

/-- A `corev1.ConfigMapVolumeSource`; `Name` is the embedded local object reference. -/
structure ConfigMapVolumeSource where
  Name : String := ""
  Items : List KeyToPath := []
  DefaultMode : Option Int := none
  Optional : Option Bool := none
deriving DecidableEq, Repr

/-- A `corev1.EmptyDirVolumeSource`. -/
structure EmptyDirVolumeSource where
  Medium : String := ""
deriving DecidableEq, Repr

/-- A `corev1.CSIVolumeSource`. -/
structure CSIVolumeSource where
  Driver : String := ""
  ReadOnly : Option Bool := none
  VolumeAttributes : GoMap String := none
deriving DecidableEq

/-- A `corev1.VolumeSource`: one pointer per kind of source. -/
structure VolumeSource where
  Secret : Option SecretVolumeSource := none
  ConfigMap : Option ConfigMapVolumeSource := none
  EmptyDir : Option EmptyDirVolumeSource := none
  CSI : Option CSIVolumeSource := none
deriving DecidableEq

/-- A `corev1.Volume`. -/
structure Volume where
  Name : String
  VolumeSource : VolumeSource := {}
deriving DecidableEq

/-- A `corev1.PodSpec`. -/
@[ext]
structure PodSpec where
  Volumes : List Volume := []
  InitContainers : List Container := []
  Containers : List Container := []
  AutomountServiceAccountToken : Option Bool := none
  PriorityClassName : String := ""
deriving DecidableEq

/-- A `corev1.PodTemplateSpec`; labels and annotations are those of the embedded object meta. -/
@[ext]
structure PodTemplateSpec where
  Labels : GoMap String := none
  Annotations : GoMap String := none
  Spec : PodSpec := {}
deriving DecidableEq

/-- A `metav1.LabelSelectorRequirement`. -/
structure LabelSelectorRequirement where
  Key : String
  Operator : String
  Values : List String
deriving DecidableEq, Repr

/-- A `metav1.LabelSelector`. -/
structure LabelSelector where
  MatchLabels : GoMap String := none
  MatchExpressions : List LabelSelectorRequirement := []
deriving DecidableEq

/-- An `appsv1.RollingUpdateDeployment`. -/
structure RollingUpdateDeployment where
  MaxUnavailable : Option String := none
  MaxSurge : Option String := none
deriving DecidableEq, Repr

/-- An `appsv1.DeploymentStrategy`; `Type_` is the Go field `Type`. -/
@[ext]
structure DeploymentStrategy where
  Type_ : String := ""
  RollingUpdate : Option RollingUpdateDeployment := none
deriving DecidableEq, Repr

/-- An `appsv1.DeploymentSpec`. -/
@[ext]
structure DeploymentSpec where
  Replicas : Option Int := none
  Selector : Option LabelSelector := none
  Template : PodTemplateSpec := {}
  Strategy : DeploymentStrategy := {}
deriving DecidableEq

/-- An `appsv1.Deployment`. -/
@[ext]
structure Deployment where
  Name : String := ""
  Namespace : String := ""
  Spec : DeploymentSpec := {}
deriving DecidableEq

/-- A `schema.GroupVersionKind`. -/
structure GroupVersionKind where
  Group : String
  Version : String
  Kind : String
deriving DecidableEq, Repr

/-! ## Types of the repository's other packages -/

/-- A `hyperv1.PlatformType`, a string type. -/
abbrev PlatformType := String

/-- A `configv1.ProxySpec`. -/
structure ProxySpec where
  HTTPProxy : String := ""
  HTTPSProxy : String := ""
  NoProxy : String := ""
deriving DecidableEq, Repr

/-- The scheduling part of a `config.DeploymentConfig`. -/
structure Scheduling where
  PriorityClass : String := ""
deriving DecidableEq, Repr

/-- A `config.DeploymentConfig`, with the fields this package assigns. -/
structure DeploymentConfig where
  Scheduling : Scheduling := {}
  SetDefaultSecurityContext : Bool := false
deriving DecidableEq, Repr

/-- The options record `util.AvailabilityProberOpts`. -/
structure AvailabilityProberOpts where
  KubeconfigVolumeName : String := ""
  RequiredAPIs : List GroupVersionKind := []
deriving DecidableEq, Repr

/-! ## Types read by `NewParams` and `ReconcilePodMonitor` -/

/-- A `metav1.ObjectMeta`. -/
structure ObjectMeta where
  Name : String := ""
  Namespace : String := ""
  Labels : GoMap String := none
  Annotations : GoMap String := none
deriving DecidableEq

/-- A `hyperv1.ManagedIdentity`. -/
structure ManagedIdentity where
  CredentialsSecretName : String := ""
deriving DecidableEq, Repr

/-- A `hyperv1.ControlPlaneManagedIdentities`. -/
structure ControlPlaneManagedIdentities where
  Ingress : ManagedIdentity := {}
deriving DecidableEq, Repr

/-- A `hyperv1.AzureResourceManagedIdentities`. -/
structure AzureResourceManagedIdentities where
  ControlPlane : ControlPlaneManagedIdentities := {}
deriving DecidableEq, Repr

/-- A `hyperv1.AzurePlatformSpec`. -/
structure AzurePlatformSpec where
  ManagedIdentities : AzureResourceManagedIdentities := {}
deriving DecidableEq, Repr

/-- A `hyperv1.PlatformSpec`; `Azure` is a pointer, nil for a control plane of
another platform. -/
structure PlatformSpec where
  Azure : Option AzurePlatformSpec := none
deriving DecidableEq, Repr

/-- A `hyperv1.ClusterConfiguration`; `Proxy` is a pointer. -/
structure ClusterConfiguration where
  Proxy : Option ProxySpec := none
deriving DecidableEq, Repr

/-- A `hyperv1.HostedControlPlaneSpec`; `Configuration` is a pointer. -/
structure HostedControlPlaneSpec where
  Platform : PlatformSpec := {}
  Configuration : Option ClusterConfiguration := none
deriving DecidableEq, Repr

/-- A `hyperv1.HostedControlPlane`, with the fields `NewParams` reads. -/
structure HostedControlPlane where
  ObjectMeta : ObjectMeta := {}
  Spec : HostedControlPlaneSpec := {}
deriving DecidableEq

/-- An `imageprovider.ReleaseImageProvider`, as its method `GetImage`. -/
abbrev ReleaseImageProvider := String → String

/-- A `metrics.MetricsSet`, a string type. -/
abbrev MetricsSet := String

/-- A `prometheusoperatorv1.RelabelConfig`. -/
structure RelabelConfig where
  SourceLabels : List String := []
  TargetLabel : String := ""
  Regex : String := ""
  Replacement : String := ""
  Action : String := ""
deriving DecidableEq, Repr

/-- A `prometheusoperatorv1.PodMetricsEndpoint`. -/
structure PodMetricsEndpoint where
  Port : String := ""
  Path : String := ""
  Scheme : String := ""
  Interval : String := ""
  MetricRelabelConfigs : List RelabelConfig := []
  RelabelConfigs : List RelabelConfig := []
deriving DecidableEq, Repr

/-- A `prometheusoperatorv1.NamespaceSelector`. -/
structure NamespaceSelector where
  Any : Bool := false
  MatchNames : List String := []
deriving DecidableEq, Repr

/-- A `prometheusoperatorv1.PodMonitorSpec`. -/
@[ext]
structure PodMonitorSpec where
  JobLabel : String := ""
  PodTargetLabels : List String := []
  PodMetricsEndpoints : List PodMetricsEndpoint := []
  Selector : LabelSelector := {}
  NamespaceSelector : NamespaceSelector := {}
deriving DecidableEq

/-- A `prometheusoperatorv1.PodMonitor`. -/
structure PodMonitor where
  Name : String := ""
  Namespace : String := ""
  Spec : PodMonitorSpec := {}
deriving DecidableEq

/-! ## Constants of the package -/

def operatorName : String := "ingress-operator"
def ingressOperatorContainerName : String := "ingress-operator"
def metricsHostname : String := "ingress-operator"
def konnectivityProxyContainerName : String := "konnectivity-proxy"
def ingressOperatorMetricsPort : Nat := 60000
def konnectivityProxyPort : Nat := 8090
def managedTrustBundlePath : String := "managed-trust-bundle.crt"
def certsTrustPath : String := "/etc/pki/tls/certs"

/-- The configuration value `Params`. -/
structure Params where
  IngressOperatorImage : String := ""
  IngressCanaryImage : String := ""
  HAProxyRouterImage : String := ""
  KubeRBACProxyImage : String := ""
  ReleaseVersion : String := ""
  TokenMinterImage : String := ""
  AvailabilityProberImage : String := ""
  ProxyImage : String := ""
  Platform : PlatformType := ""
  DeploymentConfig : DeploymentConfig := {}
  ProxyConfig : Option ProxySpec := none
  NoProxy : String := ""
  AzureCredentialsFilepath : String := ""
deriving DecidableEq

/-- The external collaborators of the package: constants and helpers of other
packages, and the one fact read from the process environment. -/
structure Ext where
  /-- The constant `hyperv1.AWSPlatform`. -/
  AWSPlatform : PlatformType
  /-- The constant `hyperv1.ControlPlaneComponentLabel`. -/
  ControlPlaneComponentLabel : String
  /-- The name `manifests.KubeAPIServerService("").Name`. -/
  KubeAPIServerServiceName : String
  /-- The name `manifests.IngressOperatorKubeconfig("").Name`. -/
  IngressOperatorKubeconfigName : String
  /-- The name `manifests.KonnectivityClientSecret("").Name`. -/
  KonnectivityClientSecretName : String
  /-- The name `manifests.KonnectivityCAConfigMap("").Name`. -/
  KonnectivityCAConfigMapName : String
  /-- The name `manifests.TrustedCABundleConfigMap("").Name`. -/
  TrustedCABundleConfigMapName : String
  /-- The constant `certs.UserCABundleMapKey`. -/
  UserCABundleMapKey : String
  /-- The constant `config.ManagedAzureIngressSecretStoreVolumeName`. -/
  ManagedAzureIngressSecretStoreVolumeName : String
  /-- The constant `config.ManagedAzureIngressSecretStoreProviderClassName`. -/
  ManagedAzureIngressSecretStoreProviderClassName : String
  /-- The check `azureutil.IsAroHCP()`, a reading of the process environment. -/
  IsAroHCP : Bool
  /-- The helper `azureutil.CreateEnvVarsForAzureManagedIdentity`. -/
  CreateEnvVarsForAzureManagedIdentity : String → List EnvVar
  /-- The helper `azureutil.CreateVolumeMountForAzureSecretStoreProviderClass`. -/
  CreateVolumeMountForAzureSecretStoreProviderClass : String → VolumeMount
  /-- The helper `azureutil.CreateVolumeForAzureSecretStoreProviderClass`. -/
  CreateVolumeForAzureSecretStoreProviderClass : String → String → Volume
  /-- The helper `proxy.SetEnvVars`, which rewrites the variable list it points to. -/
  SetEnvVars : List EnvVar → List EnvVar
  /-- The helper `kas.InClusterKASReadyURL`. -/
  InClusterKASReadyURL : PlatformType → String
  /-- The helper `util.AvailabilityProber`: target URL, image, the pod spec it
  rewrites and the option callbacks. -/
  AvailabilityProber :
    String → String → PodSpec → List (AvailabilityProberOpts → AvailabilityProberOpts) → PodSpec
  /-- The method `config.DeploymentConfig.ApplyTo`. -/
  ApplyTo : DeploymentConfig → Deployment → Deployment
  /-- The constant `util.CPOImageName`. -/
  CPOImageName : String
  /-- The constant `util.AvailabilityProberImageName`. -/
  AvailabilityProberImageName : String
  /-- The annotation key `hyperv1.ControlPlanePriorityClass`. -/
  ControlPlanePriorityClass : String
  /-- The constant `config.DefaultPriorityClass`. -/
  DefaultPriorityClass : String
  /-- The policy function `proxy.DefaultNoProxy`. -/
  DefaultNoProxy : HostedControlPlane → String
  /-- The method `config.DeploymentConfig.SetRestartAnnotation`, which rewrites
  its receiver. -/
  SetRestartAnnotation : DeploymentConfig → ObjectMeta → DeploymentConfig
  /-- The method `config.DeploymentConfig.SetDefaults`, which rewrites its
  receiver: control plane, spread labels and replica count. -/
  SetDefaults :
    DeploymentConfig → HostedControlPlane → GoMap String → Option Int → DeploymentConfig
  /-- The table `metrics.RegistryOperatorRelabelConfigs`. -/
  RegistryOperatorRelabelConfigs : MetricsSet → List RelabelConfig
  /-- The helper `util.ApplyClusterIDLabelToPodMonitor`, which rewrites the
  endpoint it points to. -/
  ApplyClusterIDLabelToPodMonitor : PodMetricsEndpoint → String → PodMetricsEndpoint

/-! ## Helpers -/

/-- Modelled from the spec: the lookup `util.FindContainer` lives in another
package.  The spec reads "the existing workload's main container", found by its
name; the model returns the first container of the list that carries the name,
and `none` (the nil pointer) when there is none. -/
def FindContainer (name : String) (containers : List Container) : Option Container :=
  containers.find? (fun c => decide (c.Name = name))

/-- An assignment to a field of `containers[0]`; `none` is the index panic on an
empty slice. -/
def updateFirst (f : Container → Container) : List Container → Option (List Container)
  | [] => none
  | c :: cs => some (f c :: cs)

/-- The formatting `fmt.Sprintf("0.0.0.0:%d", port)`. -/
def metricsListenAddr (port : Nat) : String := "0.0.0.0:" ++ toString port

/-- The formatting `fmt.Sprintf("http://127.0.0.1:%d", port)`. -/
def loopbackProxyURL (port : Nat) : String := "http://127.0.0.1:" ++ toString port

/-- The join `path.Join(dir, file)` of two clean path elements. -/
def pathJoin (dir file : String) : String := dir ++ "/" ++ file

/-- The value written under the management annotation (source line 109). -/
def managementAnnotationValue : String := "\x7b\"effect\": \"PreferredDuringScheduling\"\x7d"

/-- The key of the management annotation (source line 109). -/
def managementAnnotationKey : String := "target.workload.openshift.io/management"

/-! ## The sidecar container (source lines 258-291) -/

/-- The function `ingressOperatorKonnectivityProxyContainer`. -/
def ingressOperatorKonnectivityProxyContainer (ext : Ext) (proxyImage : String)
    (proxyConfig : Option ProxySpec) (noProxy : String) : Container :=
  let c : Container :=
    { Name := konnectivityProxyContainerName
      Image := proxyImage
      Command := ["/usr/bin/control-plane-operator", "konnectivity-https-proxy"]
      Args := ["run", "--connect-directly-to-cloud-apis"]
      Env := [{ Name := "KUBECONFIG", Value := "/etc/kubernetes/kubeconfig" }]
      Resources :=
        { Requests := GoMap.lit [(ResourceCPU, MustParse "10m"), (ResourceMemory, MustParse "30Mi")] }
      VolumeMounts :=
        [ { Name := "admin-kubeconfig", MountPath := "/etc/kubernetes" },
          { Name := "konnectivity-proxy-cert", MountPath := "/etc/konnectivity/proxy-client" },
          { Name := "konnectivity-proxy-ca", MountPath := "/etc/konnectivity/proxy-ca" },
          { Name := "managed-trust-bundle",
            MountPath := pathJoin certsTrustPath managedTrustBundlePath,
            SubPath := managedTrustBundlePath } ] }
  let c : Container :=
    match proxyConfig with
    | some pc =>
      { c with
        Args := ((c.Args ++ ["--http-proxy", pc.HTTPProxy]) ++ ["--https-proxy", pc.HTTPSProxy])
          ++ ["--no-proxy", noProxy] }
    | none => c
  { c with Env := ext.SetEnvVars c.Env }

/-! ## The deployment reconciler (source lines 87-256) -/

/-- Source lines 88-101: the default resource requests, replaced by the whole
resource object of the prior main container when that one has a request or a
limit. -/
def ingressOpResources (dep : Deployment) : ResourceRequirements :=
  let ingressOpResources : ResourceRequirements :=
    { Requests := GoMap.lit [(ResourceMemory, MustParse "80Mi"), (ResourceCPU, MustParse "10m")] }
  match FindContainer ingressOperatorContainerName dep.Spec.Template.Spec.Containers with
  | some mainContainer =>
    if mainContainer.Resources.Requests.len > 0 ∨ mainContainer.Resources.Limits.len > 0 then
      mainContainer.Resources
    else ingressOpResources
  | none => ingressOpResources

/-- Source lines 120-161: the primary container literal. -/
def primaryContainer (ext : Ext) (params : Params) (resources : ResourceRequirements) :
    Container :=
  { Command :=
      [ "ingress-operator", "start",
        "--namespace", "openshift-ingress-operator",
        "--image", "$(IMAGE)",
        "--canary-image", "$(CANARY_IMAGE)",
        "--release-version", "$(RELEASE_VERSION)",
        "--metrics-listen-addr", metricsListenAddr ingressOperatorMetricsPort ]
    Env :=
      [ { Name := "RELEASE_VERSION", Value := params.ReleaseVersion },
        { Name := "IMAGE", Value := params.HAProxyRouterImage },
        { Name := "CANARY_IMAGE", Value := params.IngressCanaryImage },
        { Name := "KUBECONFIG", Value := "/etc/kubernetes/kubeconfig" },
        { Name := "HTTP_PROXY", Value := loopbackProxyURL konnectivityProxyPort },
        { Name := "HTTPS_PROXY", Value := loopbackProxyURL konnectivityProxyPort },
        { Name := "NO_PROXY", Value := ext.KubeAPIServerServiceName } ]
    Name := ingressOperatorContainerName
    Image := params.IngressOperatorImage
    ImagePullPolicy := PullIfNotPresent
    Resources := resources
    TerminationMessagePolicy := TerminationMessageFallbackToLogsOnError
    VolumeMounts := [{ Name := "ingress-operator-kubeconfig", MountPath := "/etc/kubernetes" }] }

/-- Source lines 163-183: the volume list literal. -/
def baseVolumes (ext : Ext) : List Volume :=
  [ { Name := "ingress-operator-kubeconfig",
      VolumeSource :=
        { Secret := some { SecretName := ext.IngressOperatorKubeconfigName, DefaultMode := some 0o640 } } },
    { Name := "admin-kubeconfig",
      VolumeSource :=
        { Secret := some { SecretName := "service-network-admin-kubeconfig", DefaultMode := some 0o640 } } },
    { Name := "konnectivity-proxy-cert",
      VolumeSource :=
        { Secret := some { SecretName := ext.KonnectivityClientSecretName, DefaultMode := some 0o640 } } },
    { Name := "konnectivity-proxy-ca",
      VolumeSource :=
        { ConfigMap := some { Name := ext.KonnectivityCAConfigMapName, DefaultMode := some 0o640 } } },
    { Name := "managed-trust-bundle",
      VolumeSource :=
        { ConfigMap := some
            { Name := ext.TrustedCABundleConfigMapName
              DefaultMode := some 0o640
              Items := [{ Key := ext.UserCABundleMapKey, Path := managedTrustBundlePath }]
              Optional := some true } } } ]

/-- The mount of the service-account token (source lines 187 and 206). -/
def serviceAccountTokenMount : VolumeMount :=
  { Name := "serviceaccount-token", MountPath := "/var/run/secrets/openshift/serviceaccount" }

/-- Source lines 189-215: the token-minter container literal. -/
def tokenMinterContainer (params : Params) : Container :=
  { Name := "token-minter"
    Command := ["/usr/bin/control-plane-operator", "token-minter"]
    Args :=
      [ "--service-account-namespace=openshift-ingress-operator",
        "--service-account-name=ingress-operator",
        "--token-file=/var/run/secrets/openshift/serviceaccount/token",
        "--kubeconfig=/etc/kubernetes/kubeconfig" ]
    Resources :=
      { Requests := GoMap.lit [(ResourceCPU, MustParse "10m"), (ResourceMemory, MustParse "30Mi")] }
    Image := params.TokenMinterImage
    VolumeMounts :=
      [ serviceAccountTokenMount,
        { Name := "admin-kubeconfig", MountPath := "/etc/kubernetes" } ]
    Ports := [{ ContainerPort := ingressOperatorMetricsPort, Name := "metrics" }] }

/-- Source lines 216-217: the volume of the service-account token. -/
def serviceAccountTokenVolume : Volume :=
  { Name := "serviceaccount-token", VolumeSource := { EmptyDir := some {} } }

/-- Source lines 185-218: the branch taken when `params.Platform` is the AWS
platform. -/
def awsExtension (ext : Ext) (params : Params) (spec : PodSpec) : Option PodSpec :=
  if params.Platform = ext.AWSPlatform then do
    let containers ←
      updateFirst (fun c => { c with VolumeMounts := c.VolumeMounts ++ [serviceAccountTokenMount] })
        spec.Containers
    let containers := containers ++ [tokenMinterContainer params]
    let volumes := spec.Volumes ++ [serviceAccountTokenVolume]
    pure { spec with Containers := containers, Volumes := volumes }
  else pure spec

/-- Source lines 220-230: the call of the availability prober on the pod spec. -/
def availabilityProber (ext : Ext) (params : Params) (platformType : PlatformType)
    (spec : PodSpec) : PodSpec :=
  ext.AvailabilityProber (ext.InClusterKASReadyURL platformType) params.AvailabilityProberImage spec
    [ fun o =>
        { o with
          KubeconfigVolumeName := "ingress-operator-kubeconfig"
          RequiredAPIs := [{ Group := "route.openshift.io", Version := "v1", Kind := "Route" }] } ]

/-- The environment variables the managed-identity branch appends (source line 238). -/
def azureEnvVars (ext : Ext) (params : Params) : List EnvVar :=
  ext.CreateEnvVarsForAzureManagedIdentity params.AzureCredentialsFilepath

/-- The mount the managed-identity branch appends (source line 244). -/
def azureVolumeMount (ext : Ext) : VolumeMount :=
  ext.CreateVolumeMountForAzureSecretStoreProviderClass ext.ManagedAzureIngressSecretStoreVolumeName

/-- The volume the managed-identity branch appends (source line 251). -/
def azureVolume (ext : Ext) : Volume :=
  ext.CreateVolumeForAzureSecretStoreProviderClass ext.ManagedAzureIngressSecretStoreVolumeName
    ext.ManagedAzureIngressSecretStoreProviderClassName

/-- Source lines 236-253: the branch taken when `azureutil.IsAroHCP()` holds.
The two nil guards of the source are the identity on lists. -/
def azureExtension (ext : Ext) (params : Params) (spec : PodSpec) : Option PodSpec :=
  if ext.IsAroHCP = true then do
    let containers ←
      updateFirst (fun c => { c with Env := c.Env ++ azureEnvVars ext params }) spec.Containers
    let containers ←
      updateFirst (fun c => { c with VolumeMounts := c.VolumeMounts ++ [azureVolumeMount ext] })
        containers
    let volumes := spec.Volumes ++ [azureVolume ext]
    pure { spec with Containers := containers, Volumes := volumes }
  else pure spec

/-- The label map literal of source lines 113-117. -/
def canonicalLabels (ext : Ext) : GoMap String :=
  GoMap.lit
    [ ("name", operatorName), ("app", operatorName),
      (ext.ControlPlaneComponentLabel, operatorName) ]

/-- Source lines 88-253 of `ReconcileDeployment`: everything the function does
itself, before it hands the deployment to the deployment config (line 255). -/
def assembleDeployment (ext : Ext) (dep : Deployment) (params : Params)
    (platformType : PlatformType) : Option Deployment := do
  -- lines 88-101
  let resources := ingressOpResources dep
  -- lines 103-105
  let replicas : Option Int := some 1
  let selector : Option LabelSelector := some { MatchLabels := GoMap.lit [("name", operatorName)] }
  let strategy : DeploymentStrategy := { dep.Spec.Strategy with Type_ := RecreateDeploymentStrategyType }
  -- lines 106-109
  let annotations ←
    (GoMap.orEmpty dep.Spec.Template.Annotations).set managementAnnotationKey
      managementAnnotationValue
  -- lines 110-117: the guarded map is overwritten by the literal
  let labels : GoMap String := canonicalLabels ext
  -- lines 119-183
  let spec : PodSpec :=
    { dep.Spec.Template.Spec with
      AutomountServiceAccountToken := some false
      Containers :=
        [primaryContainer ext params resources] ++
          [ingressOperatorKonnectivityProxyContainer ext params.ProxyImage params.ProxyConfig
            params.NoProxy]
      Volumes := baseVolumes ext }
  -- lines 185-218
  let spec ← awsExtension ext params spec
  -- lines 220-230
  let spec := availabilityProber ext params platformType spec
  -- lines 236-253
  let spec ← azureExtension ext params spec
  pure
    { dep with
      Spec :=
        { dep.Spec with
          Replicas := replicas
          Selector := selector
          Strategy := strategy
          Template :=
            { dep.Spec.Template with Labels := labels, Annotations := annotations, Spec := spec } } }

/-- The function `ReconcileDeployment` (source lines 87-256): the assembly,
then `params.DeploymentConfig.ApplyTo(dep)`. -/
def ReconcileDeployment (ext : Ext) (dep : Deployment) (params : Params)
    (platformType : PlatformType) : Option Deployment :=
  (assembleDeployment ext dep params platformType).map (ext.ApplyTo params.DeploymentConfig)

/-! ## Contracts of the external collaborators -/

/-- The availability prober injects init behaviour only: it leaves the
containers, the volumes and the automount flag of the pod spec as they are. -/
def ProberFrame (ext : Ext) : Prop :=
  ∀ (url image : String) (spec : PodSpec)
    (opts : List (AvailabilityProberOpts → AvailabilityProberOpts)),
    (ext.AvailabilityProber url image spec opts).Containers = spec.Containers ∧
    (ext.AvailabilityProber url image spec opts).Volumes = spec.Volumes ∧
    (ext.AvailabilityProber url image spec opts).AutomountServiceAccountToken =
      spec.AutomountServiceAccountToken

/-- The availability prober rewrites the init containers only: what it puts
there is an idempotent function of the init containers it finds (and of its
target, image and options), and every other field of the pod spec is left as it
is. -/
def ProberInitOnly (ext : Ext) : Prop :=
  ∀ (url image : String) (opts : List (AvailabilityProberOpts → AvailabilityProberOpts)),
    ∃ inject : List Container → List Container,
      (∀ cs : List Container, inject (inject cs) = inject cs) ∧
      ∀ spec : PodSpec,
        ext.AvailabilityProber url image spec opts =
          { spec with InitContainers := inject spec.InitContainers }

/-- A deployment with other pod template annotations and another priority
class name. -/
def withPriorFields (dep : Deployment) (annotations : GoMap String)
    (priorityClassName : String) : Deployment :=
  { dep with
    Spec :=
      { dep.Spec with
        Template :=
          { dep.Spec.Template with
            Annotations := annotations
            Spec := { dep.Spec.Template.Spec with PriorityClassName := priorityClassName } } } }

/-- Modelled from the spec: the method `config.DeploymentConfig.ApplyTo` lives
in another package.  The spec has the scheduling overlay carry a priority class,
a restart-triggering annotation, a default security context and replica and
affinity defaults, and apply them last so that it can override what the
reconciler set.  The contract: for each deployment config there are annotations
and, possibly, a priority class name that the overlay writes into the pod
template, whatever it finds there; it may rewrite the fields the reconciler
assigns (replica count, selector, strategy type, labels, containers, volumes,
automount flag) in any way that does not depend on the annotations and the
priority class name it finds; and it leaves alone the object's name and
namespace, the rolling-update parameters, the init containers and the resource
sizing found on the main container. -/
def OverlayPolicy (ext : Ext) : Prop :=
  ∀ dc : DeploymentConfig,
    ∃ (annotations : List (String × String)) (priorityClass : Option String),
      ∀ dep : Deployment,
        (ext.ApplyTo dc dep).Name = dep.Name ∧
        (ext.ApplyTo dc dep).Namespace = dep.Namespace ∧
        (ext.ApplyTo dc dep).Spec.Strategy.RollingUpdate = dep.Spec.Strategy.RollingUpdate ∧
        (ext.ApplyTo dc dep).Spec.Template.Spec.InitContainers =
          dep.Spec.Template.Spec.InitContainers ∧
        ingressOpResources (ext.ApplyTo dc dep) = ingressOpResources dep ∧
        (ext.ApplyTo dc dep).Spec.Template.Annotations =
          dep.Spec.Template.Annotations.insertAll annotations ∧
        (ext.ApplyTo dc dep).Spec.Template.Spec.PriorityClassName =
          priorityClass.getD dep.Spec.Template.Spec.PriorityClassName ∧
        ∀ (prior : GoMap String) (name : String),
          (ext.ApplyTo dc (withPriorFields dep prior name)).Spec.Replicas =
            (ext.ApplyTo dc dep).Spec.Replicas ∧
          (ext.ApplyTo dc (withPriorFields dep prior name)).Spec.Selector =
            (ext.ApplyTo dc dep).Spec.Selector ∧
          (ext.ApplyTo dc (withPriorFields dep prior name)).Spec.Strategy.Type_ =
            (ext.ApplyTo dc dep).Spec.Strategy.Type_ ∧
          (ext.ApplyTo dc (withPriorFields dep prior name)).Spec.Template.Labels =
            (ext.ApplyTo dc dep).Spec.Template.Labels ∧
          (ext.ApplyTo dc (withPriorFields dep prior name)).Spec.Template.Spec.Volumes =
            (ext.ApplyTo dc dep).Spec.Template.Spec.Volumes ∧
          (ext.ApplyTo dc (withPriorFields dep prior name)).Spec.Template.Spec.Containers =
            (ext.ApplyTo dc dep).Spec.Template.Spec.Containers ∧
          (ext.ApplyTo dc
              (withPriorFields dep prior name)).Spec.Template.Spec.AutomountServiceAccountToken =
            (ext.ApplyTo dc dep).Spec.Template.Spec.AutomountServiceAccountToken

/-- The names of the five base volumes and of the service-account token volume. -/
def reconcilerVolumeNames : List String :=
  [ "ingress-operator-kubeconfig", "admin-kubeconfig", "konnectivity-proxy-cert",
    "konnectivity-proxy-ca", "managed-trust-bundle", "serviceaccount-token" ]

/-- The managed-identity helpers build a mount and a volume that carry the
name they are given, and that name is none of the reconciler's own volume names. -/
def AzureHelperContract (ext : Ext) : Prop :=
  (azureVolumeMount ext).Name = ext.ManagedAzureIngressSecretStoreVolumeName ∧
  (azureVolume ext).Name = ext.ManagedAzureIngressSecretStoreVolumeName ∧
  ext.ManagedAzureIngressSecretStoreVolumeName ∉ reconcilerVolumeNames

/-! ## A sample environment -/

/-- A sample availability prober: it puts one init container in front of the
init containers, mounting the kubeconfig volume named in the options. -/
def sampleProber (url image : String) (spec : PodSpec)
    (opts : List (AvailabilityProberOpts → AvailabilityProberOpts)) : PodSpec :=
  let o : AvailabilityProberOpts := opts.foldl (fun o f => f o) {}
  { spec with
    InitContainers :=
      [ { Name := "availability-prober"
          Image := image
          Command := ["/usr/bin/control-plane-operator", "availability-prober", "--target", url]
          VolumeMounts := [{ Name := o.KubeconfigVolumeName, MountPath := "/var/kubeconfig" }] } ] }

/-- A sample environment off the managed-identity platform. -/
def sampleExt : Ext :=
  { AWSPlatform := "AWS"
    ControlPlaneComponentLabel := "hypershift.openshift.io/control-plane-component"
    KubeAPIServerServiceName := "kube-apiserver"
    IngressOperatorKubeconfigName := "ingress-operator-kubeconfig"
    KonnectivityClientSecretName := "konnectivity-client"
    KonnectivityCAConfigMapName := "konnectivity-ca-bundle"
    TrustedCABundleConfigMapName := "trusted-ca-bundle-managed"
    UserCABundleMapKey := "ca-bundle.crt"
    ManagedAzureIngressSecretStoreVolumeName := "ingress-cert"
    ManagedAzureIngressSecretStoreProviderClassName := "managed-azure-ingress"
    IsAroHCP := false
    CreateEnvVarsForAzureManagedIdentity := fun path =>
      [{ Name := "MANAGED_AZURE_HCP_CREDENTIALS_FILE_PATH", Value := "/mnt/certs/" ++ path }]
    CreateVolumeMountForAzureSecretStoreProviderClass := fun name =>
      { Name := name, MountPath := "/mnt/certs", ReadOnly := true }
    CreateVolumeForAzureSecretStoreProviderClass := fun name cls =>
      { Name := name
        VolumeSource :=
          { CSI := some
              { Driver := "secrets-store.csi.k8s.io"
                ReadOnly := some true
                VolumeAttributes := GoMap.lit [("secretProviderClass", cls)] } } }
    SetEnvVars := fun env => env
    InClusterKASReadyURL := fun _ => "https://kube-apiserver:6443/readyz"
    AvailabilityProber := sampleProber
    ApplyTo := fun _ dep => { dep with Spec := { dep.Spec with Replicas := some 1 } }
    CPOImageName := "controlplane-operator"
    AvailabilityProberImageName := "availability-prober"
    ControlPlanePriorityClass := "hypershift.openshift.io/control-plane-priority-class"
    DefaultPriorityClass := "hypershift-control-plane"
    DefaultNoProxy := fun _ => ".cluster.local,.svc,127.0.0.1,localhost"
    SetRestartAnnotation := fun dc _ => dc
    SetDefaults := fun dc _ _ _ => dc
    RegistryOperatorRelabelConfigs := fun _ =>
      [{ SourceLabels := ["__name__"], Regex := "ingress_controller_conditions", Action := "keep" }]
    ApplyClusterIDLabelToPodMonitor := fun ep clusterID =>
      { ep with
        RelabelConfigs :=
          ep.RelabelConfigs ++ [{ TargetLabel := "_id", Replacement := clusterID, Action := "replace" }] } }

/-- The sample environment on the managed-identity platform. -/
def sampleAroExt : Ext := { sampleExt with IsAroHCP := true }

/-! ## The assembled deployment in closed form -/

/-- The container list the reconciler hands to the availability prober. -/
def containersBeforeProber (ext : Ext) (dep : Deployment) (params : Params) : List Container :=
  [ { primaryContainer ext params (ingressOpResources dep) with
      VolumeMounts :=
        (primaryContainer ext params (ingressOpResources dep)).VolumeMounts ++
          (if params.Platform = ext.AWSPlatform then [serviceAccountTokenMount] else []) },
    ingressOperatorKonnectivityProxyContainer ext params.ProxyImage params.ProxyConfig
      params.NoProxy ] ++
    (if params.Platform = ext.AWSPlatform then [tokenMinterContainer params] else [])

/-- The volume list the reconciler hands to the availability prober. -/
def volumesBeforeProber (ext : Ext) (params : Params) : List Volume :=
  baseVolumes ext ++ (if params.Platform = ext.AWSPlatform then [serviceAccountTokenVolume] else [])

/-- The pod spec the reconciler hands to the availability prober. -/
def specBeforeProber (ext : Ext) (dep : Deployment) (params : Params) : PodSpec :=
  { dep.Spec.Template.Spec with
    AutomountServiceAccountToken := some false
    Containers := containersBeforeProber ext dep params
    Volumes := volumesBeforeProber ext params }

/-- The primary container of the assembled deployment. -/
def assembledPrimary (ext : Ext) (dep : Deployment) (params : Params) : Container :=
  { primaryContainer ext params (ingressOpResources dep) with
    Env :=
      (primaryContainer ext params (ingressOpResources dep)).Env ++
        (if ext.IsAroHCP = true then azureEnvVars ext params else [])
    VolumeMounts :=
      ((primaryContainer ext params (ingressOpResources dep)).VolumeMounts ++
        (if params.Platform = ext.AWSPlatform then [serviceAccountTokenMount] else [])) ++
        (if ext.IsAroHCP = true then [azureVolumeMount ext] else []) }

/-- The container list of the assembled deployment. -/
def assembledContainers (ext : Ext) (dep : Deployment) (params : Params) : List Container :=
  [ assembledPrimary ext dep params,
    ingressOperatorKonnectivityProxyContainer ext params.ProxyImage params.ProxyConfig
      params.NoProxy ] ++
    (if params.Platform = ext.AWSPlatform then [tokenMinterContainer params] else [])

/-- The volume list of the assembled deployment. -/
def assembledVolumes (ext : Ext) (params : Params) : List Volume :=
  volumesBeforeProber ext params ++ (if ext.IsAroHCP = true then [azureVolume ext] else [])

/-- The annotations of the assembled deployment: the prior ones with the
management annotation written over them. -/
def assembledAnnotations (dep : Deployment) : GoMap String :=
  some (((dep.Spec.Template.Annotations).getD ∅).insert managementAnnotationKey
    managementAnnotationValue)

/-- The assembled deployment, in closed form. -/
def assembled (ext : Ext) (dep : Deployment) (params : Params) (platformType : PlatformType) :
    Deployment :=
  { dep with
    Spec :=
      { dep.Spec with
        Replicas := some 1
        Selector := some { MatchLabels := GoMap.lit [("name", operatorName)] }
        Strategy := { dep.Spec.Strategy with Type_ := RecreateDeploymentStrategyType }
        Template :=
          { dep.Spec.Template with
            Labels := canonicalLabels ext
            Annotations := assembledAnnotations dep
            Spec :=
              { availabilityProber ext params platformType (specBeforeProber ext dep params) with
                Containers := assembledContainers ext dep params
                Volumes := assembledVolumes ext params } } } }

/-! ## Predicates on a reconciled deployment -/

/-- The token-minter extension is present: a container named `token-minter`
and a volume named `serviceaccount-token`. -/
def hasTokenMinterExtension (dep : Deployment) : Prop :=
  (∃ c ∈ dep.Spec.Template.Spec.Containers, c.Name = "token-minter") ∧
  (∃ v ∈ dep.Spec.Template.Spec.Volumes, v.Name = "serviceaccount-token")

instance (dep : Deployment) : Decidable (hasTokenMinterExtension dep) := by
  unfold hasTokenMinterExtension
  infer_instance

/-- The managed-identity extension is present on the primary container: the
managed-identity environment variables, the secret-provider mount, and the
secret-provider volume in the pod. -/
def hasManagedIdentityExtension (ext : Ext) (params : Params) (dep : Deployment) : Prop :=
  match dep.Spec.Template.Spec.Containers with
  | [] => False
  | c :: _ =>
    (∀ e ∈ azureEnvVars ext params, e ∈ c.Env) ∧
    azureVolumeMount ext ∈ c.VolumeMounts ∧
    azureVolume ext ∈ dep.Spec.Template.Spec.Volumes

instance (ext : Ext) (params : Params) (dep : Deployment) :
    Decidable (hasManagedIdentityExtension ext params dep) := by
  unfold hasManagedIdentityExtension
  split <;> infer_instance

/-- The containers of a deployment that carry a given name. -/
def containersNamed (name : String) (dep : Deployment) : List Container :=
  dep.Spec.Template.Spec.Containers.filter (fun c => decide (c.Name = name))

/-- The volume names mounted by the containers of `Spec.Template.Spec.Containers`
(the init containers are read by `initMountedVolumeNames`). -/
def mountedVolumeNames (dep : Deployment) : List String :=
  dep.Spec.Template.Spec.Containers.flatMap (fun c => c.VolumeMounts.map (fun m => m.Name))

/-- The volume names mounted by the init containers of a deployment. -/
def initMountedVolumeNames (dep : Deployment) : List String :=
  dep.Spec.Template.Spec.InitContainers.flatMap (fun c => c.VolumeMounts.map (fun m => m.Name))

/-- The number of volumes of a deployment that carry a given name. -/
def volumeCount (name : String) (dep : Deployment) : Nat :=
  (dep.Spec.Template.Spec.Volumes.filter (fun v => decide (v.Name = name))).length

/-- A prior deployment whose pod template carries a stray annotation. -/
def strayDeployment : Deployment :=
  { Name := "ingress-operator"
    Spec := { Template := { Annotations := GoMap.lit [("stray", "x")] } } }

/-- A prior deployment whose main container was resized out of band. -/
def resizedDeployment : Deployment :=
  { Name := "ingress-operator"
    Spec :=
      { Template :=
          { Spec :=
              { Containers :=
                  [ { Name := "ingress-operator"
                      Resources :=
                        { Requests :=
                            GoMap.lit [(ResourceCPU, MustParse "50m"), (ResourceMemory, MustParse "200Mi")] } } ] } } } }

/-- Sample parameters for the AWS platform with a cluster-wide proxy. -/
def sampleParams : Params :=
  { IngressOperatorImage := "registry/ingress-operator:v1"
    TokenMinterImage := "registry/token-minter:v1"
    ProxyImage := "registry/cpo:v1"
    AvailabilityProberImage := "registry/prober:v1"
    Platform := "AWS"
    ProxyConfig := some { HTTPProxy := "http://p:3128", HTTPSProxy := "https://p:3129" }
    NoProxy := "kube-apiserver,.svc" }

/-! ## Further sample environments -/

/-- The init container of the sample availability probers. -/
def proberContainer (url image : String)
    (opts : List (AvailabilityProberOpts → AvailabilityProberOpts)) : Container :=
  let o : AvailabilityProberOpts := opts.foldl (fun o f => f o) {}
  { Name := "availability-prober"
    Image := image
    Command := ["/usr/bin/control-plane-operator", "availability-prober", "--target", url]
    VolumeMounts := [{ Name := o.KubeconfigVolumeName, MountPath := "/var/kubeconfig" }] }

/-- The init containers a prober leaves when it keeps the other init
containers: its own init container replaces the first init container when that
one is the prober's, and is put in front of the init containers otherwise. -/
def keepingInject (url image : String)
    (opts : List (AvailabilityProberOpts → AvailabilityProberOpts)) :
    List Container → List Container
  | [] => [proberContainer url image opts]
  | first :: rest =>
    if first.Name = "availability-prober" then proberContainer url image opts :: rest
    else proberContainer url image opts :: first :: rest

/-- A sample availability prober that keeps the other init containers. -/
def keepingProber (url image : String) (spec : PodSpec)
    (opts : List (AvailabilityProberOpts → AvailabilityProberOpts)) : PodSpec :=
  { spec with InitContainers := keepingInject url image opts spec.InitContainers }

/-- The sample environment with the prober that keeps the other init containers. -/
def keepingExt : Ext := { sampleExt with AvailabilityProber := keepingProber }

/-- A prior deployment with an init container of an earlier revision and the
volume it mounts. -/
def legacyDeployment : Deployment :=
  { Name := "ingress-operator"
    Spec :=
      { Template :=
          { Spec :=
              { InitContainers :=
                  [ { Name := "legacy-init"
                      VolumeMounts := [{ Name := "legacy-vol", MountPath := "/legacy" }] } ]
                Volumes := [{ Name := "legacy-vol", VolumeSource := { EmptyDir := some {} } }] } } } }

/-- A sample scheduling overlay: it sets the replica count, adds a label and a
restart annotation to the pod template, and writes the priority class of the
deployment config into the pod spec. -/
def policyOverlay (dc : DeploymentConfig) (dep : Deployment) : Deployment :=
  { dep with
    Spec :=
      { dep.Spec with
        Replicas := some 1
        Template :=
          { dep.Spec.Template with
            Labels :=
              dep.Spec.Template.Labels.insertAll
                [("hypershift.openshift.io/hosted-control-plane", "clusters-cluster")]
            Annotations :=
              dep.Spec.Template.Annotations.insertAll
                [("hypershift.openshift.io/restart-date", "2024-01-01T00:00:00Z")]
            Spec :=
              { dep.Spec.Template.Spec with
                PriorityClassName := dc.Scheduling.PriorityClass } } } }

/-- The sample environment with the sample scheduling overlay and the prober
that keeps the other init containers. -/
def policyExt : Ext := { keepingExt with ApplyTo := policyOverlay }

/-- Sample parameters whose deployment config carries a priority class. -/
def policyParams : Params :=
  { sampleParams with DeploymentConfig := { Scheduling := { PriorityClass := "hypershift-control-plane" } } }

/-! ## Parameter derivation (source lines 58-85) -/

/-- The expression `m[k]` on a `map[string]string`: the empty string when the
key is missing or the map is nil. -/
def GoMap.index (m : GoMap String) (k : String) : String :=
  (m.get k).getD ""

/-- Source lines 59-80 of `NewParams`: the parameters as they are before the
deployment config is handed to its own defaulting methods.  `none` is the panic
of reading through the nil `Azure` pointer. -/
def paramsBeforeDefaults (ext : Ext) (hcp : HostedControlPlane) (version : String)
    (releaseImageProvider userReleaseImageProvider : ReleaseImageProvider)
    (platform : PlatformType) : Option Params := do
  -- lines 59-68
  let p : Params :=
    { IngressOperatorImage := releaseImageProvider "cluster-ingress-operator"
      IngressCanaryImage := userReleaseImageProvider "cluster-ingress-operator"
      HAProxyRouterImage := userReleaseImageProvider "haproxy-router"
      ReleaseVersion := version
      TokenMinterImage := releaseImageProvider "token-minter"
      ProxyImage := releaseImageProvider ext.CPOImageName
      AvailabilityProberImage := releaseImageProvider ext.AvailabilityProberImageName
      Platform := platform }
  -- lines 69-71
  let p ←
    if ext.IsAroHCP = true then do
      let azure ← hcp.Spec.Platform.Azure
      pure
        { p with
          AzureCredentialsFilepath :=
            azure.ManagedIdentities.ControlPlane.Ingress.CredentialsSecretName }
    else pure p
  -- lines 73-76
  let p : Params :=
    match hcp.Spec.Configuration with
    | some configuration =>
      { p with ProxyConfig := configuration.Proxy, NoProxy := ext.DefaultNoProxy hcp }
    | none => p
  -- line 77
  let p : Params :=
    { p with
      DeploymentConfig :=
        { p.DeploymentConfig with
          Scheduling :=
            { p.DeploymentConfig.Scheduling with PriorityClass := ext.DefaultPriorityClass } } }
  -- lines 78-80
  let p : Params :=
    if GoMap.index hcp.ObjectMeta.Annotations ext.ControlPlanePriorityClass ≠ "" then
      { p with
        DeploymentConfig :=
          { p.DeploymentConfig with
            Scheduling :=
              { p.DeploymentConfig.Scheduling with
                PriorityClass :=
                  GoMap.index hcp.ObjectMeta.Annotations ext.ControlPlanePriorityClass } } }
    else p
  pure p

/-- Source lines 81-83 of `NewParams`: the deployment config after its own
defaulting methods and the assignment of the security-context flag. -/
def defaultedDeploymentConfig (ext : Ext) (hcp : HostedControlPlane)
    (setDefaultSecurityContext : Bool) (dc : DeploymentConfig) : DeploymentConfig :=
  let dc := ext.SetRestartAnnotation dc hcp.ObjectMeta
  let dc := ext.SetDefaults dc hcp none (some 1)
  { dc with SetDefaultSecurityContext := setDefaultSecurityContext }

/-- The function `NewParams` (source lines 58-85). -/
def NewParams (ext : Ext) (hcp : HostedControlPlane) (version : String)
    (releaseImageProvider userReleaseImageProvider : ReleaseImageProvider)
    (setDefaultSecurityContext : Bool) (platform : PlatformType) : Option Params := do
  let p ← paramsBeforeDefaults ext hcp version releaseImageProvider userReleaseImageProvider platform
  pure
    { p with
      DeploymentConfig :=
        defaultedDeploymentConfig ext hcp setDefaultSecurityContext p.DeploymentConfig }

/-! ## The pod monitor reconciler (source lines 293-311) -/

/-- An assignment through `&endpoints[0]`; `none` is the index panic on an empty
slice. -/
def updateFirstEndpoint (f : PodMetricsEndpoint → PodMetricsEndpoint) :
    List PodMetricsEndpoint → Option (List PodMetricsEndpoint)
  | [] => none
  | e :: es => some (f e :: es)

/-- The endpoint literal of source lines 301-307. -/
def scrapeEndpoint (ext : Ext) (metricsSet : MetricsSet) : PodMetricsEndpoint :=
  { Interval := "60s"
    Port := "metrics"
    Path := "/metrics"
    Scheme := "http"
    MetricRelabelConfigs := ext.RegistryOperatorRelabelConfigs metricsSet }

/-- The function `ReconcilePodMonitor`. -/
def ReconcilePodMonitor (ext : Ext) (pm : PodMonitor) (clusterID : String)
    (metricsSet : MetricsSet) : Option PodMonitor := do
  -- lines 294-296
  let selector : LabelSelector :=
    { pm.Spec.Selector with MatchLabels := GoMap.lit [("name", operatorName)] }
  -- lines 297-299
  let namespaceSelector : NamespaceSelector := { MatchNames := [pm.Namespace] }
  -- lines 300-308
  let endpoints : List PodMetricsEndpoint := [scrapeEndpoint ext metricsSet]
  -- line 310
  let endpoints ←
    updateFirstEndpoint (fun ep => ext.ApplyClusterIDLabelToPodMonitor ep clusterID) endpoints
  pure
    { pm with
      Spec :=
        { pm.Spec with
          Selector := selector
          NamespaceSelector := namespaceSelector
          PodMetricsEndpoints := endpoints } }

/-- The cluster-ID stamping helper adds relabelling rules only: it leaves the
interval, port, path and scheme of the endpoint as they are. -/
def StampFrame (ext : Ext) : Prop :=
  ∀ (ep : PodMetricsEndpoint) (clusterID : String),
    (ext.ApplyClusterIDLabelToPodMonitor ep clusterID).Interval = ep.Interval ∧
    (ext.ApplyClusterIDLabelToPodMonitor ep clusterID).Port = ep.Port ∧
    (ext.ApplyClusterIDLabelToPodMonitor ep clusterID).Path = ep.Path ∧
    (ext.ApplyClusterIDLabelToPodMonitor ep clusterID).Scheme = ep.Scheme

/-! ## Sample inputs of the later stages -/

/-- A sample image catalog: every image name resolves under the given registry. -/
def sampleProvider (registry : String) : ReleaseImageProvider :=
  fun name => registry ++ "/" ++ name

/-- A hosted control plane with a configuration block but no cluster-wide proxy. -/
def proxylessControlPlane : HostedControlPlane :=
  { ObjectMeta := { Name := "cluster", Namespace := "clusters-cluster" }
    Spec := { Configuration := some { Proxy := none } } }

/-- A hosted control plane with a cluster-wide proxy and a priority-class
annotation. -/
def proxiedControlPlane : HostedControlPlane :=
  { ObjectMeta :=
      { Name := "cluster"
        Namespace := "clusters-cluster"
        Annotations :=
          GoMap.lit [("hypershift.openshift.io/control-plane-priority-class", "custom-priority")] }
    Spec :=
      { Platform :=
          { Azure := some
              { ManagedIdentities :=
                  { ControlPlane := { Ingress := { CredentialsSecretName := "ingress-creds" } } } } }
        Configuration :=
          some { Proxy := some { HTTPProxy := "http://p:3128", HTTPSProxy := "https://p:3129" } } } }

/-- A prior pod monitor whose selector carries a match expression. -/
def strayPodMonitor : PodMonitor :=
  { Name := "ingress-operator"
    Namespace := "clusters-cluster"
    Spec :=
      { JobLabel := "old-job"
        PodMetricsEndpoints := [{ Port := "old", Interval := "5s" }]
        Selector :=
          { MatchLabels := GoMap.lit [("name", "old")]
            MatchExpressions := [{ Key := "tier", Operator := "In", Values := ["canary"] }] } } }

/-- A fresh pod monitor in the same namespace. -/
def freshPodMonitor : PodMonitor :=
  { Name := "ingress-operator", Namespace := "clusters-cluster" }

/-! ## The derived parameters and the reconciled pod monitor in closed form -/

/-- The priority class of source lines 77-80: the annotation when it is not
empty, the default otherwise. -/
def derivedPriorityClass (ext : Ext) (hcp : HostedControlPlane) : String :=
  if GoMap.index hcp.ObjectMeta.Annotations ext.ControlPlanePriorityClass ≠ "" then
    GoMap.index hcp.ObjectMeta.Annotations ext.ControlPlanePriorityClass
  else ext.DefaultPriorityClass

/-- The parameters of source lines 59-80, in closed form. -/
def derivedParams (ext : Ext) (hcp : HostedControlPlane) (version : String)
    (releaseImageProvider userReleaseImageProvider : ReleaseImageProvider)
    (platform : PlatformType) : Params :=
  { IngressOperatorImage := releaseImageProvider "cluster-ingress-operator"
    IngressCanaryImage := userReleaseImageProvider "cluster-ingress-operator"
    HAProxyRouterImage := userReleaseImageProvider "haproxy-router"
    ReleaseVersion := version
    TokenMinterImage := releaseImageProvider "token-minter"
    ProxyImage := releaseImageProvider ext.CPOImageName
    AvailabilityProberImage := releaseImageProvider ext.AvailabilityProberImageName
    Platform := platform
    AzureCredentialsFilepath :=
      if ext.IsAroHCP = true then
        match hcp.Spec.Platform.Azure with
        | some azure => azure.ManagedIdentities.ControlPlane.Ingress.CredentialsSecretName
        | none => ""
      else ""
    ProxyConfig :=
      match hcp.Spec.Configuration with
      | some configuration => configuration.Proxy
      | none => none
    NoProxy :=
      match hcp.Spec.Configuration with
      | some _ => ext.DefaultNoProxy hcp
      | none => ""
    DeploymentConfig := { Scheduling := { PriorityClass := derivedPriorityClass ext hcp } } }

/-- The reconciled pod monitor, in closed form. -/
def reconciledPodMonitor (ext : Ext) (pm : PodMonitor) (clusterID : String)
    (metricsSet : MetricsSet) : PodMonitor :=
  { pm with
    Spec :=
      { pm.Spec with
        Selector := { pm.Spec.Selector with MatchLabels := GoMap.lit [("name", operatorName)] }
        NamespaceSelector := { MatchNames := [pm.Namespace] }
        PodMetricsEndpoints :=
          [ext.ApplyClusterIDLabelToPodMonitor (scrapeEndpoint ext metricsSet) clusterID] } }

/-! ## The assembly in closed form -/

theorem set_orEmpty {V : Type} (m : GoMap V) (k : String) (v : V) :
    (GoMap.orEmpty m).set k v = some (some ((m.getD ∅).insert k v)) := by
  cases m <;> rfl

theorem awsExtension_base (ext : Ext) (dep : Deployment) (params : Params) :
    awsExtension ext params
        { dep.Spec.Template.Spec with
          AutomountServiceAccountToken := some false
          Containers :=
            [primaryContainer ext params (ingressOpResources dep)] ++
              [ingressOperatorKonnectivityProxyContainer ext params.ProxyImage params.ProxyConfig
                params.NoProxy]
          Volumes := baseVolumes ext } =
      some (specBeforeProber ext dep params) := by
  unfold awsExtension specBeforeProber containersBeforeProber volumesBeforeProber
  by_cases h : params.Platform = ext.AWSPlatform
  · simp [h, updateFirst]
  · simp [h]

theorem azureExtension_probed (ext : Ext) (hP : ProberFrame ext) (dep : Deployment)
    (params : Params) (platformType : PlatformType) :
    azureExtension ext params
        (availabilityProber ext params platformType (specBeforeProber ext dep params)) =
      some
        { availabilityProber ext params platformType (specBeforeProber ext dep params) with
          Containers := assembledContainers ext dep params
          Volumes := assembledVolumes ext params } := by
  obtain ⟨hc, hv, -⟩ := hP (ext.InClusterKASReadyURL platformType) params.AvailabilityProberImage
    (specBeforeProber ext dep params)
    [ fun o =>
        { o with
          KubeconfigVolumeName := "ingress-operator-kubeconfig"
          RequiredAPIs := [{ Group := "route.openshift.io", Version := "v1", Kind := "Route" }] } ]
  have hc' : (availabilityProber ext params platformType (specBeforeProber ext dep params)).Containers
      = containersBeforeProber ext dep params := hc
  have hv' : (availabilityProber ext params platformType (specBeforeProber ext dep params)).Volumes
      = volumesBeforeProber ext params := hv
  by_cases h : ext.IsAroHCP = true
  · unfold azureExtension assembledContainers assembledPrimary assembledVolumes
    simp [h, hc', hv', containersBeforeProber, updateFirst]
  · have e1 : assembledContainers ext dep params =
        (availabilityProber ext params platformType (specBeforeProber ext dep params)).Containers := by
      rw [hc']; simp [assembledContainers, assembledPrimary, containersBeforeProber, h]
    have e2 : assembledVolumes ext params =
        (availabilityProber ext params platformType (specBeforeProber ext dep params)).Volumes := by
      rw [hv']; simp [assembledVolumes, h]
    rw [e1, e2]
    simp [azureExtension, h]

theorem assembleDeployment_eq (ext : Ext) (hP : ProberFrame ext) (dep : Deployment)
    (params : Params) (platformType : PlatformType) :
    assembleDeployment ext dep params platformType = some (assembled ext dep params platformType) := by
  unfold assembleDeployment
  simp only [set_orEmpty, awsExtension_base, azureExtension_probed ext hP, Option.bind_eq_bind,
    Option.some_bind, Option.pure_def, bind_pure_comp]
  rfl

theorem ReconcileDeployment_eq (ext : Ext) (hP : ProberFrame ext) (dep : Deployment)
    (params : Params) (platformType : PlatformType) :
    ReconcileDeployment ext dep params platformType =
      some (ext.ApplyTo params.DeploymentConfig (assembled ext dep params platformType)) := by
  simp [ReconcileDeployment, assembleDeployment_eq ext hP]

theorem sampleExt_proberFrame : ProberFrame sampleExt :=
  fun _ _ _ _ => ⟨rfl, rfl, rfl⟩

theorem sampleAroExt_proberFrame : ProberFrame sampleAroExt :=
  fun _ _ _ _ => ⟨rfl, rfl, rfl⟩

theorem sampleAroExt_azureHelperContract : AzureHelperContract sampleAroExt := by
  refine ⟨rfl, rfl, ?_⟩
  decide

/-! ## Topology reset (C8) -/

/-- C8. For every prior deployment, every Params and every platform argument,
the deployment that `ReconcileDeployment` assembles and hands to the deployment
config has `Spec.Replicas` equal to 1, `Spec.Selector` equal to the selector whose
match labels are exactly `name = ingress-operator` with no match expressions, and
`Spec.Strategy.Type` equal to `Recreate`, which is not `RollingUpdate`. -/
theorem reconcileDeployment_topology_reset (ext : Ext) (hP : ProberFrame ext) (dep : Deployment)
    (params : Params) (platformType : PlatformType) :
    ∃ a : Deployment,
      assembleDeployment ext dep params platformType = some a ∧
      ReconcileDeployment ext dep params platformType =
        some (ext.ApplyTo params.DeploymentConfig a) ∧
      a.Spec.Replicas = some 1 ∧
      a.Spec.Selector =
        some { MatchLabels := GoMap.lit [("name", "ingress-operator")], MatchExpressions := [] } ∧
      a.Spec.Strategy.Type_ = RecreateDeploymentStrategyType ∧
      a.Spec.Strategy.Type_ ≠ RollingUpdateDeploymentStrategyType :=
  ⟨assembled ext dep params platformType, assembleDeployment_eq ext hP dep params platformType,
    ReconcileDeployment_eq ext hP dep params platformType, rfl, rfl, rfl,
    show RecreateDeploymentStrategyType ≠ RollingUpdateDeploymentStrategyType by decide⟩

theorem reconcileDeployment_topology_reset_witness :
    ProberFrame sampleExt ∧
    ∃ a : Deployment,
      assembleDeployment sampleExt strayDeployment sampleParams "AWS" = some a ∧
      ReconcileDeployment sampleExt strayDeployment sampleParams "AWS" =
        some (sampleExt.ApplyTo sampleParams.DeploymentConfig a) ∧
      a.Spec.Replicas = some 1 ∧
      a.Spec.Selector =
        some { MatchLabels := GoMap.lit [("name", "ingress-operator")], MatchExpressions := [] } ∧
      a.Spec.Strategy.Type_ = RecreateDeploymentStrategyType ∧
      a.Spec.Strategy.Type_ ≠ RollingUpdateDeploymentStrategyType :=
  ⟨sampleExt_proberFrame,
    reconcileDeployment_topology_reset sampleExt sampleExt_proberFrame strayDeployment
      sampleParams "AWS"⟩

/-! ## Lookups in the assembled deployment -/

theorem containersNamed_main (ext : Ext) (dep : Deployment) (params : Params)
    (platformType : PlatformType) :
    containersNamed ingressOperatorContainerName (assembled ext dep params platformType) =
      [assembledPrimary ext dep params] := by
  have h1 : (assembledPrimary ext dep params).Name = "ingress-operator" := rfl
  have h2 : (ingressOperatorKonnectivityProxyContainer ext params.ProxyImage params.ProxyConfig
      params.NoProxy).Name = "konnectivity-proxy" := by
    unfold ingressOperatorKonnectivityProxyContainer
    cases params.ProxyConfig <;> rfl
  have h3 : (tokenMinterContainer params).Name = "token-minter" := rfl
  show List.filter _ (assembledContainers ext dep params) = _
  unfold assembledContainers
  by_cases h : params.Platform = ext.AWSPlatform <;>
    simp [h, List.filter_cons, h1, h2, h3, ingressOperatorContainerName]

theorem containersNamed_proxy (ext : Ext) (dep : Deployment) (params : Params)
    (platformType : PlatformType) :
    containersNamed konnectivityProxyContainerName (assembled ext dep params platformType) =
      [ingressOperatorKonnectivityProxyContainer ext params.ProxyImage params.ProxyConfig
        params.NoProxy] := by
  have h1 : (assembledPrimary ext dep params).Name = "ingress-operator" := rfl
  have h2 : (ingressOperatorKonnectivityProxyContainer ext params.ProxyImage params.ProxyConfig
      params.NoProxy).Name = "konnectivity-proxy" := by
    unfold ingressOperatorKonnectivityProxyContainer
    cases params.ProxyConfig <;> rfl
  have h3 : (tokenMinterContainer params).Name = "token-minter" := rfl
  show List.filter _ (assembledContainers ext dep params) = _
  unfold assembledContainers
  by_cases h : params.Platform = ext.AWSPlatform <;>
    simp [h, List.filter_cons, h1, h2, h3, konnectivityProxyContainerName]

/-! ## Resource sizing (C2, C3) -/

/-- C2. When the prior pod template has a container named `ingress-operator`
(the one the lookup finds) with at least one request or at least one limit,
then for every Params and platform argument the assembled deployment has
exactly one container named `ingress-operator`, and its `Resources` are the
whole prior `Resources` object. -/
theorem reconcileDeployment_preserves_resources (ext : Ext) (hP : ProberFrame ext)
    (dep : Deployment) (params : Params) (platformType : PlatformType) (prior : Container)
    (hfind : FindContainer "ingress-operator" dep.Spec.Template.Spec.Containers = some prior)
    (hsized : prior.Resources.Requests.len > 0 ∨ prior.Resources.Limits.len > 0) :
    ∃ (a : Deployment) (main : Container),
      assembleDeployment ext dep params platformType = some a ∧
      ReconcileDeployment ext dep params platformType =
        some (ext.ApplyTo params.DeploymentConfig a) ∧
      containersNamed "ingress-operator" a = [main] ∧
      main.Resources = prior.Resources := by
  refine ⟨assembled ext dep params platformType, assembledPrimary ext dep params,
    assembleDeployment_eq ext hP dep params platformType,
    ReconcileDeployment_eq ext hP dep params platformType,
    containersNamed_main ext dep params platformType, ?_⟩
  show ingressOpResources dep = prior.Resources
  unfold ingressOpResources
  simp only [ingressOperatorContainerName, hfind, hsized, if_true]

theorem reconcileDeployment_preserves_resources_witness :
    ProberFrame sampleExt ∧
    FindContainer "ingress-operator" resizedDeployment.Spec.Template.Spec.Containers =
      some { Name := "ingress-operator"
             Resources :=
               { Requests :=
                   GoMap.lit [(ResourceCPU, MustParse "50m"), (ResourceMemory, MustParse "200Mi")] } } ∧
    ∃ (a : Deployment) (main : Container),
      assembleDeployment sampleExt resizedDeployment sampleParams "AWS" = some a ∧
      ReconcileDeployment sampleExt resizedDeployment sampleParams "AWS" =
        some (sampleExt.ApplyTo sampleParams.DeploymentConfig a) ∧
      containersNamed "ingress-operator" a = [main] ∧
      main.Resources =
        { Requests :=
            GoMap.lit [(ResourceCPU, MustParse "50m"), (ResourceMemory, MustParse "200Mi")] } :=
  ⟨sampleExt_proberFrame, by decide,
    reconcileDeployment_preserves_resources sampleExt sampleExt_proberFrame resizedDeployment
      sampleParams "AWS"
      { Name := "ingress-operator"
        Resources :=
          { Requests :=
              GoMap.lit [(ResourceCPU, MustParse "50m"), (ResourceMemory, MustParse "200Mi")] } }
      (by decide) (by decide)⟩

/-- C3. When the prior deployment has no container named `ingress-operator`
(as the empty deployment of first creation), or the one it has carries neither a
request nor a limit, the assembled deployment has exactly one container named
`ingress-operator`, and its `Resources` are the requests `cpu: 10m`,
`memory: 80Mi` with no limits. -/
theorem reconcileDeployment_default_resources (ext : Ext) (hP : ProberFrame ext)
    (dep : Deployment) (params : Params) (platformType : PlatformType)
    (hprior :
      FindContainer "ingress-operator" dep.Spec.Template.Spec.Containers = none ∨
      ∃ prior : Container,
        FindContainer "ingress-operator" dep.Spec.Template.Spec.Containers = some prior ∧
        prior.Resources.Requests.len = 0 ∧ prior.Resources.Limits.len = 0) :
    ∃ (a : Deployment) (main : Container),
      assembleDeployment ext dep params platformType = some a ∧
      ReconcileDeployment ext dep params platformType =
        some (ext.ApplyTo params.DeploymentConfig a) ∧
      containersNamed "ingress-operator" a = [main] ∧
      main.Resources =
        { Requests := GoMap.lit [("cpu", MustParse "10m"), ("memory", MustParse "80Mi")]
          Limits := none } := by
  refine ⟨assembled ext dep params platformType, assembledPrimary ext dep params,
    assembleDeployment_eq ext hP dep params platformType,
    ReconcileDeployment_eq ext hP dep params platformType,
    containersNamed_main ext dep params platformType, ?_⟩
  show ingressOpResources dep = _
  have hlit : (GoMap.lit [(ResourceMemory, MustParse "80Mi"), (ResourceCPU, MustParse "10m")] :
      ResourceList) = GoMap.lit [("cpu", MustParse "10m"), ("memory", MustParse "80Mi")] := by
    show some _ = some _
    exact congrArg some (Finmap.insert_insert_of_ne ∅ (by decide))
  unfold ingressOpResources
  rcases hprior with hnone | ⟨prior, hsome, hreq, hlim⟩
  · simp only [ingressOperatorContainerName, hnone, hlit]
  · have hno : ¬ (prior.Resources.Requests.len > 0 ∨ prior.Resources.Limits.len > 0) := by omega
    simp only [ingressOperatorContainerName, hsome, hno, if_false, hlit]

theorem reconcileDeployment_default_resources_witness :
    ProberFrame sampleExt ∧
    FindContainer "ingress-operator" ({} : Deployment).Spec.Template.Spec.Containers = none ∧
    ∃ (a : Deployment) (main : Container),
      assembleDeployment sampleExt {} sampleParams "AWS" = some a ∧
      ReconcileDeployment sampleExt {} sampleParams "AWS" =
        some (sampleExt.ApplyTo sampleParams.DeploymentConfig a) ∧
      containersNamed "ingress-operator" a = [main] ∧
      main.Resources =
        { Requests := GoMap.lit [("cpu", MustParse "10m"), ("memory", MustParse "80Mi")]
          Limits := none } :=
  ⟨sampleExt_proberFrame, by decide,
    reconcileDeployment_default_resources sampleExt sampleExt_proberFrame {} sampleParams "AWS"
      (Or.inl (by decide))⟩


/-! ## Proxy propagation (C7) -/

theorem konnectivityProxy_name (ext : Ext) (proxyImage : String) (proxyConfig : Option ProxySpec)
    (noProxy : String) :
    (ingressOperatorKonnectivityProxyContainer ext proxyImage proxyConfig noProxy).Name =
      "konnectivity-proxy" := by
  unfold ingressOperatorKonnectivityProxyContainer
  cases proxyConfig <;> rfl

theorem konnectivityProxy_volumeMounts (ext : Ext) (proxyImage : String)
    (proxyConfig : Option ProxySpec) (noProxy : String) :
    (ingressOperatorKonnectivityProxyContainer ext proxyImage proxyConfig noProxy).VolumeMounts.map
        (fun m => m.Name) =
      ["admin-kubeconfig", "konnectivity-proxy-cert", "konnectivity-proxy-ca",
        "managed-trust-bundle"] := by
  unfold ingressOperatorKonnectivityProxyContainer
  cases proxyConfig <;> rfl

/-- C7. For every proxy image and no-proxy string the sidecar's arguments are
`run --connect-directly-to-cloud-apis --http-proxy <HTTPProxy> --https-proxy
<HTTPSProxy> --no-proxy <noProxy>` when a proxy spec is passed, and exactly
`run --connect-directly-to-cloud-apis`, with none of the three proxy flags, when
none is passed; and the one container named `konnectivity-proxy` of the assembled
deployment is that sidecar built from `Params.ProxyImage`, `Params.ProxyConfig`
and `Params.NoProxy`. -/
theorem konnectivityProxy_args (ext : Ext) (hP : ProberFrame ext) (proxyImage noProxy : String)
    (spec : ProxySpec) (dep : Deployment) (params : Params) (platformType : PlatformType) :
    (ingressOperatorKonnectivityProxyContainer ext proxyImage (some spec) noProxy).Args =
      ["run", "--connect-directly-to-cloud-apis", "--http-proxy", spec.HTTPProxy,
        "--https-proxy", spec.HTTPSProxy, "--no-proxy", noProxy] ∧
    (ingressOperatorKonnectivityProxyContainer ext proxyImage none noProxy).Args =
      ["run", "--connect-directly-to-cloud-apis"] ∧
    "--http-proxy" ∉ (ingressOperatorKonnectivityProxyContainer ext proxyImage none noProxy).Args ∧
    "--https-proxy" ∉ (ingressOperatorKonnectivityProxyContainer ext proxyImage none noProxy).Args ∧
    "--no-proxy" ∉ (ingressOperatorKonnectivityProxyContainer ext proxyImage none noProxy).Args ∧
    ∃ a : Deployment,
      assembleDeployment ext dep params platformType = some a ∧
      ReconcileDeployment ext dep params platformType =
        some (ext.ApplyTo params.DeploymentConfig a) ∧
      containersNamed "konnectivity-proxy" a =
        [ingressOperatorKonnectivityProxyContainer ext params.ProxyImage params.ProxyConfig
          params.NoProxy] := by
  have hnone : (ingressOperatorKonnectivityProxyContainer ext proxyImage none noProxy).Args =
      ["run", "--connect-directly-to-cloud-apis"] := rfl
  refine ⟨rfl, hnone, ?_, ?_, ?_, assembled ext dep params platformType,
    assembleDeployment_eq ext hP dep params platformType,
    ReconcileDeployment_eq ext hP dep params platformType,
    containersNamed_proxy ext dep params platformType⟩ <;>
  · rw [hnone]
    decide

theorem konnectivityProxy_args_witness :
    ProberFrame sampleExt ∧
    (ingressOperatorKonnectivityProxyContainer sampleExt "registry/cpo:v1"
        (some { HTTPProxy := "http://p:3128", HTTPSProxy := "https://p:3129" })
        "kube-apiserver,.svc").Args =
      ["run", "--connect-directly-to-cloud-apis", "--http-proxy", "http://p:3128",
        "--https-proxy", "https://p:3129", "--no-proxy", "kube-apiserver,.svc"] ∧
    ∃ a : Deployment,
      assembleDeployment sampleExt {} sampleParams "AWS" = some a ∧
      containersNamed "konnectivity-proxy" a =
        [ingressOperatorKonnectivityProxyContainer sampleExt "registry/cpo:v1"
          (some { HTTPProxy := "http://p:3128", HTTPSProxy := "https://p:3129" })
          "kube-apiserver,.svc"] :=
  have h := konnectivityProxy_args sampleExt sampleExt_proberFrame "registry/cpo:v1"
    "kube-apiserver,.svc" { HTTPProxy := "http://p:3128", HTTPSProxy := "https://p:3129" } {}
    sampleParams "AWS"
  ⟨sampleExt_proberFrame, h.1,
    h.2.2.2.2.2.elim fun a ha => ⟨a, ha.1, ha.2.2⟩⟩

/-! ## Labels and annotations (C6) -/

theorem get_lit_none {V : Type} (kvs : List (String × V)) (k : String)
    (h : ∀ kv ∈ kvs, k ≠ kv.1) : (GoMap.lit kvs).get k = none := by
  unfold GoMap.lit GoMap.get
  suffices H : ∀ (f : Finmap (fun _ : String => V)), f.lookup k = none →
      (kvs.foldl (fun f kv => f.insert kv.1 kv.2) f).lookup k = none by
    exact H ∅ (Finmap.lookup_empty k)
  induction kvs with
  | nil => intro f hf; exact hf
  | cons kv rest ih =>
    intro f hf
    apply ih (fun kv' hkv' => h kv' (List.mem_cons_of_mem _ hkv'))
    rw [Finmap.lookup_insert_of_ne _ (h kv (List.mem_cons_self _ _))]
    exact hf

theorem assembledAnnotations_get_key (dep : Deployment) :
    (assembledAnnotations dep).get managementAnnotationKey = some managementAnnotationValue := by
  simp [assembledAnnotations, GoMap.get]

theorem assembledAnnotations_get_other (dep : Deployment) (k : String)
    (hk : k ≠ managementAnnotationKey) :
    (assembledAnnotations dep).get k = dep.Spec.Template.Annotations.get k := by
  unfold assembledAnnotations GoMap.get
  simp only [Finmap.lookup_insert_of_ne _ hk]
  cases dep.Spec.Template.Annotations <;> simp

/-- C6, as the code has it. For every prior deployment the pod template labels
of the assembled deployment are exactly the canonical map (`name`, `app` and the
control-plane component label, all `ingress-operator`), so no other prior label
key survives; the pod template annotations are the prior annotations with the
management annotation written over them: that key carries the scheduling
preference, and every other key reads as it did in the prior pod template. -/
theorem reconcileDeployment_labels_annotations (ext : Ext) (hP : ProberFrame ext)
    (dep : Deployment) (params : Params) (platformType : PlatformType) :
    ∃ a : Deployment,
      assembleDeployment ext dep params platformType = some a ∧
      ReconcileDeployment ext dep params platformType =
        some (ext.ApplyTo params.DeploymentConfig a) ∧
      a.Spec.Template.Labels =
        GoMap.lit
          [ ("name", "ingress-operator"), ("app", "ingress-operator"),
            (ext.ControlPlaneComponentLabel, "ingress-operator") ] ∧
      (∀ k : String, k ≠ "name" → k ≠ "app" → k ≠ ext.ControlPlaneComponentLabel →
        a.Spec.Template.Labels.get k = none) ∧
      a.Spec.Template.Annotations.get "target.workload.openshift.io/management" =
        some "\x7b\"effect\": \"PreferredDuringScheduling\"\x7d" ∧
      (∀ k : String, k ≠ "target.workload.openshift.io/management" →
        a.Spec.Template.Annotations.get k = dep.Spec.Template.Annotations.get k) := by
  refine ⟨assembled ext dep params platformType,
    assembleDeployment_eq ext hP dep params platformType,
    ReconcileDeployment_eq ext hP dep params platformType, rfl, ?_,
    assembledAnnotations_get_key dep, fun k hk => assembledAnnotations_get_other dep k hk⟩
  intro k h1 h2 h3
  show (canonicalLabels ext).get k = none
  apply get_lit_none
  intro kv hkv
  simp only [List.mem_cons, List.mem_singleton, List.not_mem_nil, or_false] at hkv
  rcases hkv with rfl | rfl | rfl
  · exact h1
  · exact h2
  · exact h3

theorem reconcileDeployment_labels_annotations_witness :
    ProberFrame sampleExt ∧
    ∃ a : Deployment,
      assembleDeployment sampleExt strayDeployment sampleParams "AWS" = some a ∧
      a.Spec.Template.Labels =
        GoMap.lit
          [ ("name", "ingress-operator"), ("app", "ingress-operator"),
            ("hypershift.openshift.io/control-plane-component", "ingress-operator") ] ∧
      a.Spec.Template.Annotations.get "target.workload.openshift.io/management" =
        some "\x7b\"effect\": \"PreferredDuringScheduling\"\x7d" ∧
      a.Spec.Template.Annotations.get "stray" =
        strayDeployment.Spec.Template.Annotations.get "stray" :=
  ⟨sampleExt_proberFrame,
    (reconcileDeployment_labels_annotations sampleExt sampleExt_proberFrame strayDeployment
      sampleParams "AWS").elim
      fun a ha => ⟨a, ha.1, ha.2.2.1, ha.2.2.2.2.1, ha.2.2.2.2.2 "stray" (by decide)⟩⟩

/-- C6 as stated fails: a prior pod template annotation outside the canonical
set, here `stray`, is still there after the reset, both in the assembled
deployment and in the result of `ReconcileDeployment`, so the annotations are not
the canonical set. -/
theorem label_annotation_reset_counterexample :
    strayDeployment.Spec.Template.Annotations.get "stray" = some "x" ∧
    ∃ a out : Deployment,
      assembleDeployment sampleExt strayDeployment sampleParams "AWS" = some a ∧
      ReconcileDeployment sampleExt strayDeployment sampleParams "AWS" = some out ∧
      a.Spec.Template.Annotations.get "stray" = some "x" ∧
      out.Spec.Template.Annotations.get "stray" = some "x" ∧
      out.Spec.Template.Annotations ≠
        GoMap.lit
          [("target.workload.openshift.io/management",
            "\x7b\"effect\": \"PreferredDuringScheduling\"\x7d")] :=
  ⟨by decide, _, _,
    assembleDeployment_eq sampleExt sampleExt_proberFrame strayDeployment sampleParams "AWS",
    ReconcileDeployment_eq sampleExt sampleExt_proberFrame strayDeployment sampleParams "AWS",
    by decide, by decide, by decide⟩


/-! ## Volumes and mounts (C5) -/

theorem mountedVolumeNames_assembled (ext : Ext) (dep : Deployment) (params : Params)
    (platformType : PlatformType) :
    mountedVolumeNames (assembled ext dep params platformType) =
      ((["ingress-operator-kubeconfig"] ++
          (if params.Platform = ext.AWSPlatform then ["serviceaccount-token"] else [])) ++
          (if ext.IsAroHCP = true then [(azureVolumeMount ext).Name] else [])) ++
        ["admin-kubeconfig", "konnectivity-proxy-cert", "konnectivity-proxy-ca",
          "managed-trust-bundle"] ++
        (if params.Platform = ext.AWSPlatform then ["serviceaccount-token", "admin-kubeconfig"]
          else []) := by
  show List.flatMap (assembledContainers ext dep params) _ = _
  unfold assembledContainers
  have hp := konnectivityProxy_volumeMounts ext params.ProxyImage params.ProxyConfig params.NoProxy
  by_cases haws : params.Platform = ext.AWSPlatform <;> by_cases haro : ext.IsAroHCP = true <;>
    simp [haws, haro, hp, assembledPrimary, primaryContainer, tokenMinterContainer,
      serviceAccountTokenMount]

theorem volumeNames_assembled (ext : Ext) (dep : Deployment) (params : Params)
    (platformType : PlatformType) :
    (assembled ext dep params platformType).Spec.Template.Spec.Volumes.map (fun v => v.Name) =
      (["ingress-operator-kubeconfig", "admin-kubeconfig", "konnectivity-proxy-cert",
          "konnectivity-proxy-ca", "managed-trust-bundle"] ++
          (if params.Platform = ext.AWSPlatform then ["serviceaccount-token"] else [])) ++
        (if ext.IsAroHCP = true then [(azureVolume ext).Name] else []) := by
  show (assembledVolumes ext params).map _ = _
  unfold assembledVolumes volumesBeforeProber
  by_cases haws : params.Platform = ext.AWSPlatform <;> by_cases haro : ext.IsAroHCP = true <;>
    simp [haws, haro, baseVolumes, serviceAccountTokenVolume]

theorem volumeCount_eq_count (name : String) (dep : Deployment) :
    volumeCount name dep =
      (dep.Spec.Template.Spec.Volumes.map (fun v => v.Name)).count name := by
  unfold volumeCount
  induction dep.Spec.Template.Spec.Volumes with
  | nil => rfl
  | cons v vs ih =>
    by_cases h : v.Name = name
    · simp [List.filter_cons, h, ih]
    · have h' : ¬ name = v.Name := fun e => h e.symm
      simp [List.filter_cons, h, List.count_cons, ih, h']


theorem volumeNames_nodup (aws aro : Prop) [Decidable aws] [Decidable aro] (z : String)
    (hz : z ∉ reconcilerVolumeNames) :
    ((["ingress-operator-kubeconfig", "admin-kubeconfig", "konnectivity-proxy-cert",
        "konnectivity-proxy-ca", "managed-trust-bundle"] ++
        (if aws then ["serviceaccount-token"] else [])) ++
      (if aro then [z] else [])).Nodup := by
  simp only [reconcilerVolumeNames, List.mem_cons, List.mem_singleton, List.not_mem_nil,
    or_false, not_or] at hz
  obtain ⟨h1, h2, h3, h4, h5, h6⟩ := hz
  by_cases haws : aws <;> by_cases haro : aro <;>
    simp [haws, haro, Ne.symm h1, Ne.symm h2, Ne.symm h3, Ne.symm h4, Ne.symm h5, Ne.symm h6]

theorem mounted_iff_volume (aws aro : Prop) [Decidable aws] [Decidable aro] (z n : String) :
    n ∈ ((["ingress-operator-kubeconfig"] ++ (if aws then ["serviceaccount-token"] else [])) ++
          (if aro then [z] else [])) ++
        ["admin-kubeconfig", "konnectivity-proxy-cert", "konnectivity-proxy-ca",
          "managed-trust-bundle"] ++
        (if aws then ["serviceaccount-token", "admin-kubeconfig"] else []) ↔
    n ∈ (["ingress-operator-kubeconfig", "admin-kubeconfig", "konnectivity-proxy-cert",
        "konnectivity-proxy-ca", "managed-trust-bundle"] ++
        (if aws then ["serviceaccount-token"] else [])) ++
      (if aro then [z] else []) := by
  by_cases haws : aws <;> by_cases haro : aro <;> simp [haws, haro] <;> tauto

theorem keepingExt_proberFrame : ProberFrame keepingExt :=
  fun _ _ _ _ => ⟨rfl, rfl, rfl⟩

/-- C5 as stated fails: the reconciler does not reset the init containers, so
the init container of an earlier revision is still in the assembled pod
template and mounts `legacy-vol`, while the volume list, which is reset, has no
volume of that name. -/
theorem volume_mount_closure_counterexample :
    ProberFrame keepingExt ∧
    ∃ out : Deployment,
      ReconcileDeployment keepingExt legacyDeployment sampleParams "AWS" = some out ∧
      out.Spec.Template.Spec.InitContainers.map (fun c => c.Name) =
        ["availability-prober", "legacy-init"] ∧
      "legacy-vol" ∈ initMountedVolumeNames out ∧
      volumeCount "legacy-vol" out = 0 :=
  ⟨keepingExt_proberFrame, _,
    ReconcileDeployment_eq keepingExt keepingExt_proberFrame legacyDeployment sampleParams "AWS",
    by decide, by decide, by decide⟩

/-- C5, as the code has it. For every prior deployment, Params and platform
argument (on and off AWS, on and off the managed-identity platform), in the
assembled pod template every volume name mounted by a container of
`Spec.Containers` is the name of exactly one volume of the pod, every volume of
the pod is mounted by one of these containers, and no two volumes share a name.
The init containers are not reset: they are what the availability prober makes
of the prior init containers, and a volume name mounted by one of them is the
name of exactly one volume exactly when it is the name of one of the assembled
volumes. -/
theorem volume_mount_closure (ext : Ext) (hP : ProberFrame ext)
    (hAz : ext.IsAroHCP = true → AzureHelperContract ext) (dep : Deployment) (params : Params)
    (platformType : PlatformType) :
    ∃ a : Deployment,
      assembleDeployment ext dep params platformType = some a ∧
      ReconcileDeployment ext dep params platformType =
        some (ext.ApplyTo params.DeploymentConfig a) ∧
      (∀ n ∈ mountedVolumeNames a, volumeCount n a = 1) ∧
      (∀ v ∈ a.Spec.Template.Spec.Volumes, v.Name ∈ mountedVolumeNames a) ∧
      (a.Spec.Template.Spec.Volumes.map (fun v => v.Name)).Nodup ∧
      (∃ spec : PodSpec,
        spec.InitContainers = dep.Spec.Template.Spec.InitContainers ∧
        a.Spec.Template.Spec.InitContainers =
          (ext.AvailabilityProber (ext.InClusterKASReadyURL platformType)
            params.AvailabilityProberImage spec
            [ fun o =>
                { o with
                  KubeconfigVolumeName := "ingress-operator-kubeconfig"
                  RequiredAPIs :=
                    [{ Group := "route.openshift.io", Version := "v1", Kind := "Route" }] } ]).InitContainers) ∧
      (∀ n ∈ initMountedVolumeNames a,
        volumeCount n a = 1 ↔ n ∈ a.Spec.Template.Spec.Volumes.map (fun v => v.Name)) := by
  -- off the managed-identity platform the helper's names do not occur
  have key : ∃ z : String, z ∉ reconcilerVolumeNames ∧
      (if ext.IsAroHCP = true then [(azureVolumeMount ext).Name] else []) =
        (if ext.IsAroHCP = true then [z] else []) ∧
      (if ext.IsAroHCP = true then [(azureVolume ext).Name] else []) =
        (if ext.IsAroHCP = true then [z] else []) := by
    by_cases haro : ext.IsAroHCP = true
    · obtain ⟨hm, hv, hz⟩ := hAz haro
      exact ⟨_, hz, by rw [hm], by rw [hv]⟩
    · exact ⟨"", by decide, by simp [haro], by simp [haro]⟩
  obtain ⟨z, hz, hm, hv⟩ := key
  have hnd := volumeNames_nodup (params.Platform = ext.AWSPlatform) (ext.IsAroHCP = true) z hz
  refine ⟨assembled ext dep params platformType,
    assembleDeployment_eq ext hP dep params platformType,
    ReconcileDeployment_eq ext hP dep params platformType, ?_, ?_, ?_,
    ⟨specBeforeProber ext dep params, rfl, rfl⟩, ?_⟩
  · intro n hn
    rw [volumeCount_eq_count, volumeNames_assembled, hv]
    rw [mountedVolumeNames_assembled, hm, mounted_iff_volume] at hn
    exact List.count_eq_one_of_mem hnd hn
  · intro v hv'
    rw [mountedVolumeNames_assembled, hm, mounted_iff_volume, ← hv, ← volumeNames_assembled]
    exact List.mem_map_of_mem _ hv'
  · rw [volumeNames_assembled, hv]
    exact hnd
  · intro n _
    rw [volumeCount_eq_count, volumeNames_assembled, hv]
    constructor
    · intro h
      exact List.count_pos_iff.mp (by omega)
    · intro h
      exact List.count_eq_one_of_mem hnd h

theorem volume_mount_closure_witness :
    ProberFrame sampleAroExt ∧
    (sampleAroExt.IsAroHCP = true → AzureHelperContract sampleAroExt) ∧
    ∃ a : Deployment,
      assembleDeployment sampleAroExt {} sampleParams "AWS" = some a ∧
      ReconcileDeployment sampleAroExt {} sampleParams "AWS" =
        some (sampleAroExt.ApplyTo sampleParams.DeploymentConfig a) ∧
      (∀ n ∈ mountedVolumeNames a, volumeCount n a = 1) ∧
      (∀ v ∈ a.Spec.Template.Spec.Volumes, v.Name ∈ mountedVolumeNames a) ∧
      (a.Spec.Template.Spec.Volumes.map (fun v => v.Name)).Nodup ∧
      (∀ n ∈ initMountedVolumeNames a,
        volumeCount n a = 1 ↔ n ∈ a.Spec.Template.Spec.Volumes.map (fun v => v.Name)) :=
  ⟨sampleAroExt_proberFrame, fun _ => sampleAroExt_azureHelperContract,
    (volume_mount_closure sampleAroExt sampleAroExt_proberFrame
      (fun _ => sampleAroExt_azureHelperContract) {} sampleParams "AWS").elim
      fun a h => ⟨a, h.1, h.2.1, h.2.2.1, h.2.2.2.1, h.2.2.2.2.1, h.2.2.2.2.2.2⟩⟩

/-! ## Platform extensions (C4, C9) -/

theorem containers_assembled (ext : Ext) (dep : Deployment) (params : Params)
    (platformType : PlatformType) :
    (assembled ext dep params platformType).Spec.Template.Spec.Containers =
      [ assembledPrimary ext dep params,
        ingressOperatorKonnectivityProxyContainer ext params.ProxyImage params.ProxyConfig
          params.NoProxy ] ++
        (if params.Platform = ext.AWSPlatform then [tokenMinterContainer params] else []) :=
  rfl

theorem containersNamed_tokenMinter (ext : Ext) (dep : Deployment) (params : Params)
    (platformType : PlatformType) :
    containersNamed "token-minter" (assembled ext dep params platformType) =
      (if params.Platform = ext.AWSPlatform then [tokenMinterContainer params] else []) := by
  have h1 : (assembledPrimary ext dep params).Name = "ingress-operator" := rfl
  have h2 := konnectivityProxy_name ext params.ProxyImage params.ProxyConfig params.NoProxy
  have h3 : (tokenMinterContainer params).Name = "token-minter" := rfl
  show List.filter _ (assembledContainers ext dep params) = _
  unfold assembledContainers
  by_cases h : params.Platform = ext.AWSPlatform <;>
    simp [h, List.filter_cons, h1, h2, h3]

theorem primary_tokenMounts (ext : Ext) (hAz : ext.IsAroHCP = true → AzureHelperContract ext)
    (dep : Deployment) (params : Params) :
    (assembledPrimary ext dep params).VolumeMounts.filter
        (fun m => decide (m.Name = "serviceaccount-token")) =
      (if params.Platform = ext.AWSPlatform then [serviceAccountTokenMount] else []) := by
  unfold assembledPrimary
  by_cases haro : ext.IsAroHCP = true
  · obtain ⟨hm, -, hz⟩ := hAz haro
    have hne : (azureVolumeMount ext).Name ≠ "serviceaccount-token" := by
      rw [hm]
      intro e
      exact hz (by rw [e]; decide)
    by_cases haws : params.Platform = ext.AWSPlatform <;>
      simp [haws, haro, hne, primaryContainer, serviceAccountTokenMount, List.filter_cons]
  · by_cases haws : params.Platform = ext.AWSPlatform <;>
      simp [haws, haro, primaryContainer, serviceAccountTokenMount, List.filter_cons]

theorem tokenVolumes_assembled (ext : Ext) (hAz : ext.IsAroHCP = true → AzureHelperContract ext)
    (dep : Deployment) (params : Params) (platformType : PlatformType) :
    (assembled ext dep params platformType).Spec.Template.Spec.Volumes.filter
        (fun v => decide (v.Name = "serviceaccount-token")) =
      (if params.Platform = ext.AWSPlatform then [serviceAccountTokenVolume] else []) := by
  show List.filter _ (assembledVolumes ext params) = _
  unfold assembledVolumes volumesBeforeProber
  by_cases haro : ext.IsAroHCP = true
  · obtain ⟨-, hv, hz⟩ := hAz haro
    have hne : (azureVolume ext).Name ≠ "serviceaccount-token" := by
      rw [hv]
      intro e
      exact hz (by rw [e]; decide)
    by_cases haws : params.Platform = ext.AWSPlatform <;>
      simp [haws, haro, hne, baseVolumes, serviceAccountTokenVolume, List.filter_cons]
  · by_cases haws : params.Platform = ext.AWSPlatform <;>
      simp [haws, haro, baseVolumes, serviceAccountTokenVolume, List.filter_cons]

/-- C9. For every prior deployment and Params: when `Params.Platform` is AWS the
assembled pod template has the three containers `ingress-operator`,
`konnectivity-proxy` and `token-minter` (image `Params.TokenMinterImage`, mounts
`serviceaccount-token` and `admin-kubeconfig`, container port 60000 named
`metrics`), exactly one volume named `serviceaccount-token`, an EmptyDir, and on
the primary container exactly one mount named `serviceaccount-token`, at
`/var/run/secrets/openshift/serviceaccount`; for every other value of
`Params.Platform` the container list is exactly the primary container and the
sidecar, and there is no container `token-minter`, no volume and no mount on the
primary container named `serviceaccount-token`. -/
theorem tokenMinter_iff_aws (ext : Ext) (hP : ProberFrame ext)
    (hAz : ext.IsAroHCP = true → AzureHelperContract ext) (dep : Deployment) (params : Params)
    (platformType : PlatformType) :
    ∃ (a : Deployment) (main minter : Container),
      assembleDeployment ext dep params platformType = some a ∧
      ReconcileDeployment ext dep params platformType =
        some (ext.ApplyTo params.DeploymentConfig a) ∧
      containersNamed "ingress-operator" a = [main] ∧
      minter.Name = "token-minter" ∧
      minter.Image = params.TokenMinterImage ∧
      minter.VolumeMounts.map (fun m => m.Name) = ["serviceaccount-token", "admin-kubeconfig"] ∧
      minter.Ports = [{ Name := "metrics", ContainerPort := 60000 }] ∧
      (params.Platform = ext.AWSPlatform →
        a.Spec.Template.Spec.Containers =
          [ main,
            ingressOperatorKonnectivityProxyContainer ext params.ProxyImage params.ProxyConfig
              params.NoProxy,
            minter ] ∧
        containersNamed "token-minter" a = [minter] ∧
        a.Spec.Template.Spec.Volumes.filter (fun v => decide (v.Name = "serviceaccount-token")) =
          [{ Name := "serviceaccount-token", VolumeSource := { EmptyDir := some {} } }] ∧
        main.VolumeMounts.filter (fun m => decide (m.Name = "serviceaccount-token")) =
          [{ Name := "serviceaccount-token",
             MountPath := "/var/run/secrets/openshift/serviceaccount" }]) ∧
      (params.Platform ≠ ext.AWSPlatform →
        a.Spec.Template.Spec.Containers =
          [ main,
            ingressOperatorKonnectivityProxyContainer ext params.ProxyImage params.ProxyConfig
              params.NoProxy ] ∧
        a.Spec.Template.Spec.Containers.map (fun c => c.Name) =
          ["ingress-operator", "konnectivity-proxy"] ∧
        containersNamed "token-minter" a = [] ∧
        a.Spec.Template.Spec.Volumes.filter (fun v => decide (v.Name = "serviceaccount-token")) =
          [] ∧
        main.VolumeMounts.filter (fun m => decide (m.Name = "serviceaccount-token")) = []) := by
  refine ⟨assembled ext dep params platformType, assembledPrimary ext dep params,
    tokenMinterContainer params, assembleDeployment_eq ext hP dep params platformType,
    ReconcileDeployment_eq ext hP dep params platformType,
    containersNamed_main ext dep params platformType, rfl, rfl, rfl, rfl, ?_, ?_⟩
  · intro haws
    rw [containers_assembled, containersNamed_tokenMinter,
      tokenVolumes_assembled ext hAz, primary_tokenMounts ext hAz]
    simp [haws, serviceAccountTokenVolume, serviceAccountTokenMount]
  · intro haws
    rw [containers_assembled, containersNamed_tokenMinter,
      tokenVolumes_assembled ext hAz, primary_tokenMounts ext hAz]
    have h1 : (assembledPrimary ext dep params).Name = "ingress-operator" := rfl
    simp [haws, konnectivityProxy_name, h1]

theorem tokenMinter_iff_aws_witness :
    ProberFrame sampleAroExt ∧
    (sampleAroExt.IsAroHCP = true → AzureHelperContract sampleAroExt) ∧
    sampleParams.Platform = sampleAroExt.AWSPlatform ∧
    ∃ (a : Deployment),
      assembleDeployment sampleAroExt {} sampleParams "AWS" = some a ∧
      a.Spec.Template.Spec.Containers.map (fun c => c.Name) =
        ["ingress-operator", "konnectivity-proxy", "token-minter"] ∧
      a.Spec.Template.Spec.Volumes.filter (fun v => decide (v.Name = "serviceaccount-token")) =
        [{ Name := "serviceaccount-token", VolumeSource := { EmptyDir := some {} } }] :=
  ⟨sampleAroExt_proberFrame, fun _ => sampleAroExt_azureHelperContract, rfl,
    (tokenMinter_iff_aws sampleAroExt sampleAroExt_proberFrame
      (fun _ => sampleAroExt_azureHelperContract) {} sampleParams "AWS").elim
      fun a ha => ha.elim fun main hm => hm.elim fun minter h =>
        ⟨a, h.1, by
          have hc := (h.2.2.2.2.2.2.2.1 rfl).1
          have hn := h.2.2.1
          have hmn : main.Name = "ingress-operator" := by
            have : main ∈ containersNamed "ingress-operator" a := by rw [hn]; simp
            simpa [containersNamed] using (List.mem_filter.mp this).2
          rw [hc]
          simp [hmn, h.2.2.2.1, konnectivityProxy_name],
          (h.2.2.2.2.2.2.2.1 rfl).2.2.1⟩⟩


/-- C4 as stated fails: with `Params.Platform` AWS and the managed-identity check
true, the reconciled deployment has the token-minter extension and the
managed-identity extension at the same time. -/
theorem platform_exclusivity_counterexample :
    sampleParams.Platform = sampleAroExt.AWSPlatform ∧ sampleAroExt.IsAroHCP = true ∧
    ∃ out : Deployment,
      ReconcileDeployment sampleAroExt {} sampleParams "AWS" = some out ∧
      hasTokenMinterExtension out ∧
      hasManagedIdentityExtension sampleAroExt sampleParams out :=
  ⟨rfl, rfl, _, ReconcileDeployment_eq sampleAroExt sampleAroExt_proberFrame {} sampleParams "AWS",
    by decide, by decide⟩

/-- C4, as the code has it. The two extensions are decided independently: the
token-minter extension is present exactly when `Params.Platform` is AWS; with the
managed-identity check true the primary container carries the managed-identity
variables and mount and the pod the secret-provider volume, and with the check
false the primary container's environment and mounts and the pod's volumes are
the base ones (with the token mount and volume on AWS) and nothing else. So on
AWS with the check true both extensions are present, and whenever
`Params.Platform` is not AWS the token-minter extension is absent. -/
theorem platform_extensions_independent (ext : Ext) (hP : ProberFrame ext) (dep : Deployment)
    (params : Params) (platformType : PlatformType) :
    ∃ (a : Deployment) (main : Container),
      assembleDeployment ext dep params platformType = some a ∧
      ReconcileDeployment ext dep params platformType =
        some (ext.ApplyTo params.DeploymentConfig a) ∧
      containersNamed "ingress-operator" a = [main] ∧
      (hasTokenMinterExtension a ↔ params.Platform = ext.AWSPlatform) ∧
      (ext.IsAroHCP = true → hasManagedIdentityExtension ext params a) ∧
      (ext.IsAroHCP = false →
        main.Env = (primaryContainer ext params main.Resources).Env ∧
        main.VolumeMounts =
          [{ Name := "ingress-operator-kubeconfig", MountPath := "/etc/kubernetes" }] ++
            (if params.Platform = ext.AWSPlatform then [serviceAccountTokenMount] else []) ∧
        a.Spec.Template.Spec.Volumes =
          baseVolumes ext ++
            (if params.Platform = ext.AWSPlatform then [serviceAccountTokenVolume] else [])) ∧
      (params.Platform = ext.AWSPlatform → ext.IsAroHCP = true →
        hasTokenMinterExtension a ∧ hasManagedIdentityExtension ext params a) := by
  have hTM : hasTokenMinterExtension (assembled ext dep params platformType) ↔
      params.Platform = ext.AWSPlatform := by
    have h1 : (assembledPrimary ext dep params).Name = "ingress-operator" := rfl
    have h2 := konnectivityProxy_name ext params.ProxyImage params.ProxyConfig params.NoProxy
    have h3 : (tokenMinterContainer params).Name = "token-minter" := rfl
    unfold hasTokenMinterExtension
    rw [containers_assembled]
    show _ ∧ (∃ v ∈ assembledVolumes ext params, _) ↔ _
    unfold assembledVolumes volumesBeforeProber
    by_cases haws : params.Platform = ext.AWSPlatform
    · simp only [haws, if_true, iff_true]
      exact ⟨⟨tokenMinterContainer params, by simp, h3⟩, serviceAccountTokenVolume, by simp, rfl⟩
    · simp [haws, h1, h2]
  have hMI : ext.IsAroHCP = true →
      hasManagedIdentityExtension ext params (assembled ext dep params platformType) := by
    intro haro
    unfold hasManagedIdentityExtension
    rw [containers_assembled]
    show _ ∧ _ ∧ azureVolume ext ∈ assembledVolumes ext params
    unfold assembledVolumes assembledPrimary
    simp only [haro, if_true]
    exact ⟨fun e he => List.mem_append_right _ he, by simp, by simp⟩
  refine ⟨assembled ext dep params platformType, assembledPrimary ext dep params,
    assembleDeployment_eq ext hP dep params platformType,
    ReconcileDeployment_eq ext hP dep params platformType,
    containersNamed_main ext dep params platformType, hTM, hMI, ?_,
    fun haws haro => ⟨hTM.2 haws, hMI haro⟩⟩
  intro haro
  refine ⟨?_, ?_, ?_⟩
  · simp [assembledPrimary, haro, primaryContainer]
  · simp [assembledPrimary, haro, primaryContainer]
  · show assembledVolumes ext params = _
    simp [assembledVolumes, volumesBeforeProber, haro]

theorem platform_extensions_independent_witness :
    ProberFrame sampleAroExt ∧
    ∃ (a : Deployment),
      assembleDeployment sampleAroExt {} sampleParams "AWS" = some a ∧
      (hasTokenMinterExtension a ↔ sampleParams.Platform = sampleAroExt.AWSPlatform) ∧
      hasManagedIdentityExtension sampleAroExt sampleParams a :=
  ⟨sampleAroExt_proberFrame,
    (platform_extensions_independent sampleAroExt sampleAroExt_proberFrame {} sampleParams
      "AWS").elim
      fun a ha => ha.elim fun _ h => ⟨a, h.1, h.2.2.2.1, h.2.2.2.2.1 rfl⟩⟩

/-! ## Prior state (C10) -/

theorem ingressOpResources_congr (d1 d2 : Deployment)
    (hres :
      (FindContainer "ingress-operator" d1.Spec.Template.Spec.Containers).map
          (fun c => c.Resources) =
        (FindContainer "ingress-operator" d2.Spec.Template.Spec.Containers).map
          (fun c => c.Resources)) :
    ingressOpResources d1 = ingressOpResources d2 := by
  unfold ingressOpResources
  simp only [ingressOperatorContainerName]
  cases h1 : FindContainer "ingress-operator" d1.Spec.Template.Spec.Containers <;>
    cases h2 : FindContainer "ingress-operator" d2.Spec.Template.Spec.Containers <;>
    simp [h1, h2] at hres ⊢
  rw [hres]

theorem automount_assembled (ext : Ext) (hP : ProberFrame ext) (dep : Deployment)
    (params : Params) (platformType : PlatformType) :
    (assembled ext dep params platformType).Spec.Template.Spec.AutomountServiceAccountToken =
      some false :=
  (hP _ _ (specBeforeProber ext dep params) _).2.2

/-- C10 as stated fails: two prior deployments, neither with a container named
`ingress-operator`, are reconciled to deployments whose pod template annotations
differ. -/
theorem prior_state_counterexample :
    (FindContainer "ingress-operator" ({} : Deployment).Spec.Template.Spec.Containers).map
        (fun c => c.Resources) =
      (FindContainer "ingress-operator" strayDeployment.Spec.Template.Spec.Containers).map
        (fun c => c.Resources) ∧
    ∃ o1 o2 : Deployment,
      ReconcileDeployment sampleExt {} sampleParams "AWS" = some o1 ∧
      ReconcileDeployment sampleExt strayDeployment sampleParams "AWS" = some o2 ∧
      o1.Spec.Template.Annotations ≠ o2.Spec.Template.Annotations :=
  ⟨by decide, _, _,
    ReconcileDeployment_eq sampleExt sampleExt_proberFrame {} sampleParams "AWS",
    ReconcileDeployment_eq sampleExt sampleExt_proberFrame strayDeployment sampleParams "AWS",
    by decide⟩

/-- C10, as the code has it. For every Params and platform argument and any two
prior deployments whose `ingress-operator` containers have equal `Resources` (or
which both lack such a container), the two assembled deployments agree on the
replica count, the selector, the strategy type, the pod template labels,
`AutomountServiceAccountToken`, the container list and the volume list; their
pod template annotations agree on the management annotation, and agree as a
whole when the two prior pod templates carried the same annotations. -/
theorem prior_state_only_through_resources (ext : Ext) (hP : ProberFrame ext)
    (d1 d2 : Deployment) (params : Params) (platformType : PlatformType)
    (hres :
      (FindContainer "ingress-operator" d1.Spec.Template.Spec.Containers).map
          (fun c => c.Resources) =
        (FindContainer "ingress-operator" d2.Spec.Template.Spec.Containers).map
          (fun c => c.Resources)) :
    ∃ a1 a2 : Deployment,
      assembleDeployment ext d1 params platformType = some a1 ∧
      assembleDeployment ext d2 params platformType = some a2 ∧
      ReconcileDeployment ext d1 params platformType =
        some (ext.ApplyTo params.DeploymentConfig a1) ∧
      ReconcileDeployment ext d2 params platformType =
        some (ext.ApplyTo params.DeploymentConfig a2) ∧
      a1.Spec.Replicas = a2.Spec.Replicas ∧
      a1.Spec.Selector = a2.Spec.Selector ∧
      a1.Spec.Strategy.Type_ = a2.Spec.Strategy.Type_ ∧
      a1.Spec.Template.Labels = a2.Spec.Template.Labels ∧
      a1.Spec.Template.Spec.AutomountServiceAccountToken =
        a2.Spec.Template.Spec.AutomountServiceAccountToken ∧
      a1.Spec.Template.Spec.Containers = a2.Spec.Template.Spec.Containers ∧
      a1.Spec.Template.Spec.Volumes = a2.Spec.Template.Spec.Volumes ∧
      a1.Spec.Template.Annotations.get "target.workload.openshift.io/management" =
        a2.Spec.Template.Annotations.get "target.workload.openshift.io/management" ∧
      (d1.Spec.Template.Annotations = d2.Spec.Template.Annotations →
        a1.Spec.Template.Annotations = a2.Spec.Template.Annotations) := by
  have hr := ingressOpResources_congr d1 d2 hres
  refine ⟨assembled ext d1 params platformType, assembled ext d2 params platformType,
    assembleDeployment_eq ext hP d1 params platformType,
    assembleDeployment_eq ext hP d2 params platformType,
    ReconcileDeployment_eq ext hP d1 params platformType,
    ReconcileDeployment_eq ext hP d2 params platformType, rfl, rfl, rfl, rfl, ?_, ?_, rfl, ?_, ?_⟩
  · rw [automount_assembled ext hP, automount_assembled ext hP]
  · rw [containers_assembled, containers_assembled]
    unfold assembledPrimary
    rw [hr]
  · exact (assembledAnnotations_get_key d1).trans (assembledAnnotations_get_key d2).symm
  · intro h
    show assembledAnnotations d1 = assembledAnnotations d2
    unfold assembledAnnotations
    rw [h]

theorem prior_state_only_through_resources_witness :
    ProberFrame sampleExt ∧
    (FindContainer "ingress-operator" ({} : Deployment).Spec.Template.Spec.Containers).map
        (fun c => c.Resources) =
      (FindContainer "ingress-operator" strayDeployment.Spec.Template.Spec.Containers).map
        (fun c => c.Resources) ∧
    ∃ a1 a2 : Deployment,
      assembleDeployment sampleExt {} sampleParams "AWS" = some a1 ∧
      assembleDeployment sampleExt strayDeployment sampleParams "AWS" = some a2 ∧
      a1.Spec.Template.Spec.Containers = a2.Spec.Template.Spec.Containers ∧
      a1.Spec.Template.Spec.Volumes = a2.Spec.Template.Spec.Volumes :=
  ⟨sampleExt_proberFrame, by decide,
    (prior_state_only_through_resources sampleExt sampleExt_proberFrame {} strayDeployment
      sampleParams "AWS" (by decide)).elim
      fun a1 h1 => h1.elim fun a2 h =>
        ⟨a1, a2, h.1, h.2.1, h.2.2.2.2.2.2.2.2.2.1, h.2.2.2.2.2.2.2.2.2.2.1⟩⟩


/-! ## Idempotence (C1) -/

theorem ingressOpResources_sized (dep : Deployment) :
    (ingressOpResources dep).Requests.len > 0 ∨ (ingressOpResources dep).Limits.len > 0 := by
  have hdef : (GoMap.lit [(ResourceMemory, MustParse "80Mi"), (ResourceCPU, MustParse "10m")] :
      ResourceList).len > 0 := by decide
  unfold ingressOpResources
  cases FindContainer ingressOperatorContainerName dep.Spec.Template.Spec.Containers with
  | none => exact Or.inl hdef
  | some c =>
    by_cases h : c.Resources.Requests.len > 0 ∨ c.Resources.Limits.len > 0
    · simp only [h, if_true]
    · simp only [h, if_false]
      exact Or.inl hdef

theorem ingressOpResources_assembled (ext : Ext) (dep : Deployment) (params : Params)
    (platformType : PlatformType) :
    ingressOpResources (assembled ext dep params platformType) = ingressOpResources dep := by
  have hfind : FindContainer ingressOperatorContainerName
      (assembled ext dep params platformType).Spec.Template.Spec.Containers =
        some (assembledPrimary ext dep params) := by
    rw [containers_assembled]
    have h1 : (assembledPrimary ext dep params).Name = "ingress-operator" := rfl
    simp [FindContainer, ingressOperatorContainerName, h1]
  have hres : (assembledPrimary ext dep params).Resources = ingressOpResources dep := rfl
  have hs := ingressOpResources_sized dep
  conv_lhs => unfold ingressOpResources
  simp only [hfind, hres, hs, if_true]

theorem proberInitOnly_frame (ext : Ext) (hI : ProberInitOnly ext) : ProberFrame ext := by
  intro url image spec opts
  obtain ⟨inject, -, hq⟩ := hI url image opts
  rw [hq spec]
  exact ⟨rfl, rfl, rfl⟩

theorem insertAll_some {V : Type} (f : Finmap (fun _ : String => V)) (kvs : List (String × V)) :
    GoMap.insertAll (some f) kvs = some (kvs.foldl (fun f kv => f.insert kv.1 kv.2) f) := by
  cases kvs <;> rfl

theorem lookup_foldl_insert_of_not_mem {V : Type} (kvs : List (String × V)) (j : String)
    (hj : j ∉ kvs.map (fun kv => kv.1)) (f : Finmap (fun _ : String => V)) :
    (kvs.foldl (fun f kv => f.insert kv.1 kv.2) f).lookup j = f.lookup j := by
  induction kvs generalizing f with
  | nil => rfl
  | cons kv rest ih =>
    simp only [List.map_cons, List.mem_cons, not_or] at hj
    rw [List.foldl_cons, ih hj.2, Finmap.lookup_insert_of_ne _ hj.1]

theorem foldl_insert_congr {V : Type} (kvs : List (String × V))
    (f1 f2 : Finmap (fun _ : String => V))
    (h : ∀ j : String, j ∉ kvs.map (fun kv => kv.1) → f1.lookup j = f2.lookup j) :
    kvs.foldl (fun f kv => f.insert kv.1 kv.2) f1 =
      kvs.foldl (fun f kv => f.insert kv.1 kv.2) f2 := by
  induction kvs generalizing f1 f2 with
  | nil => exact Finmap.ext_lookup (fun j => h j (by simp))
  | cons kv rest ih =>
    rw [List.foldl_cons, List.foldl_cons]
    apply ih
    intro j hj
    by_cases hjk : j = kv.1
    · rw [hjk, Finmap.lookup_insert, Finmap.lookup_insert]
    · rw [Finmap.lookup_insert_of_ne _ hjk, Finmap.lookup_insert_of_ne _ hjk]
      apply h
      simp only [List.map_cons, List.mem_cons, not_or]
      exact ⟨hjk, hj⟩

/-- The overlay's annotations absorb a reassembly: writing them over the
management annotation written over them gives what writing them once gives. -/
theorem insertAll_reassembled (kvs : List (String × String)) (m : GoMap String) :
    GoMap.insertAll
        (some (Finmap.insert managementAnnotationKey managementAnnotationValue
          ((GoMap.insertAll
            (some (Finmap.insert managementAnnotationKey managementAnnotationValue (m.getD ∅)))
            kvs).getD ∅)))
        kvs =
      GoMap.insertAll
        (some (Finmap.insert managementAnnotationKey managementAnnotationValue (m.getD ∅))) kvs := by
  rw [insertAll_some, insertAll_some, Option.getD_some]
  apply congrArg some
  apply foldl_insert_congr
  intro j hj
  by_cases hjk : j = managementAnnotationKey
  · rw [hjk, Finmap.lookup_insert, Finmap.lookup_insert]
  · rw [Finmap.lookup_insert_of_ne _ hjk, lookup_foldl_insert_of_not_mem kvs j hj]

theorem overlay_absorbs_reassembly (ext : Ext) (hI : ProberInitOnly ext) (hO : OverlayPolicy ext)
    (dep : Deployment) (params : Params) (platformType : PlatformType) :
    ext.ApplyTo params.DeploymentConfig
        (assembled ext
          (ext.ApplyTo params.DeploymentConfig (assembled ext dep params platformType)) params
          platformType) =
      ext.ApplyTo params.DeploymentConfig (assembled ext dep params platformType) := by
  obtain ⟨kvs, pc, hN⟩ := hO params.DeploymentConfig
  obtain ⟨inject, hidem, hq⟩ := hI (ext.InClusterKASReadyURL platformType)
    params.AvailabilityProberImage
    [ fun o =>
        { o with
          KubeconfigVolumeName := "ingress-operator-kubeconfig"
          RequiredAPIs := [{ Group := "route.openshift.io", Version := "v1", Kind := "Route" }] } ]
  have hprobe : ∀ spec : PodSpec, availabilityProber ext params platformType spec =
      { spec with InitContainers := inject spec.InitContainers } := hq
  generalize ha : assembled ext dep params platformType = a
  generalize hr : ext.ApplyTo params.DeploymentConfig a = r
  obtain ⟨rName, rNs, rRU, rInit, rRes, rAnn, rPcn, rOwned⟩ := hN a
  rw [hr] at rName rNs rRU rInit rRes rAnn rPcn
  -- the first assembly
  have aInit : a.Spec.Template.Spec.InitContainers =
      inject dep.Spec.Template.Spec.InitContainers := by
    rw [← ha]
    show (availabilityProber ext params platformType (specBeforeProber ext dep params)).InitContainers
      = _
    rw [hprobe]
    rfl
  have aAnn : a.Spec.Template.Annotations =
      some (Finmap.insert managementAnnotationKey managementAnnotationValue
        (dep.Spec.Template.Annotations.getD ∅)) := by
    rw [← ha]
    rfl
  have aRes : ingressOpResources a = ingressOpResources dep := by
    rw [← ha]
    exact ingressOpResources_assembled ext dep params platformType
  have aC : a.Spec.Template.Spec.Containers = assembledContainers ext dep params := by
    rw [← ha]
    rfl
  have aAuto : a.Spec.Template.Spec.AutomountServiceAccountToken = some false := by
    rw [← ha]
    show (availabilityProber ext params platformType
      (specBeforeProber ext dep params)).AutomountServiceAccountToken = _
    rw [hprobe]
    rfl
  -- the second assembly is the first one with other annotations and priority class
  have hx : assembled ext r params platformType =
      withPriorFields a
        (some (Finmap.insert managementAnnotationKey managementAnnotationValue
          (r.Spec.Template.Annotations.getD ∅)))
        r.Spec.Template.Spec.PriorityClassName := by
    have hc : assembledContainers ext r params = a.Spec.Template.Spec.Containers := by
      rw [aC]
      unfold assembledContainers assembledPrimary
      rw [rRes, aRes]
    have hpod : (assembled ext r params platformType).Spec.Template.Spec =
        { a.Spec.Template.Spec with
          PriorityClassName := r.Spec.Template.Spec.PriorityClassName } := by
      show ({ availabilityProber ext params platformType (specBeforeProber ext r params) with
          Containers := assembledContainers ext r params
          Volumes := assembledVolumes ext params } : PodSpec) = _
      rw [hprobe, hc]
      refine PodSpec.ext ?_ ?_ rfl ?_ rfl
      · rw [← ha]
        rfl
      · show inject r.Spec.Template.Spec.InitContainers = a.Spec.Template.Spec.InitContainers
        rw [rInit, aInit, hidem]
      · exact aAuto.symm
    refine Deployment.ext rName rNs
      (DeploymentSpec.ext ?_ ?_ (PodTemplateSpec.ext ?_ rfl hpod) (DeploymentStrategy.ext ?_ rRU))
    · rw [← ha]; rfl
    · rw [← ha]; rfl
    · rw [← ha]; rfl
    · rw [← ha]; rfl
  rw [hx]
  generalize hann : (some (Finmap.insert managementAnnotationKey managementAnnotationValue
    (r.Spec.Template.Annotations.getD ∅)) : GoMap String) = ann
  obtain ⟨wName, wNs, wRU, wInit, -, wAnn, wPcn, -⟩ :=
    hN (withPriorFields a ann r.Spec.Template.Spec.PriorityClassName)
  obtain ⟨oRep, oSel, oTy, oLab, oVol, oCon, oAuto⟩ :=
    rOwned ann r.Spec.Template.Spec.PriorityClassName
  rw [hr] at oRep oSel oTy oLab oVol oCon oAuto
  have hannEq : (ext.ApplyTo params.DeploymentConfig
      (withPriorFields a ann r.Spec.Template.Spec.PriorityClassName)).Spec.Template.Annotations =
      r.Spec.Template.Annotations := by
    rw [wAnn]
    show GoMap.insertAll ann kvs = _
    rw [← hann, rAnn, aAnn]
    exact insertAll_reassembled kvs dep.Spec.Template.Annotations
  have hpcnEq : (ext.ApplyTo params.DeploymentConfig
      (withPriorFields a ann r.Spec.Template.Spec.PriorityClassName)).Spec.Template.Spec.PriorityClassName
      = r.Spec.Template.Spec.PriorityClassName := by
    rw [wPcn]
    show pc.getD r.Spec.Template.Spec.PriorityClassName = _
    rw [rPcn]
    cases pc <;> rfl
  exact Deployment.ext (wName.trans rName.symm) (wNs.trans rNs.symm)
    (DeploymentSpec.ext oRep oSel
      (PodTemplateSpec.ext oLab hannEq
        (PodSpec.ext oVol (wInit.trans rInit.symm) oCon oAuto hpcnEq))
      (DeploymentStrategy.ext oTy (wRU.trans rRU.symm)))

/-- C1. Reconciling a deployment and then reconciling the result again, with
the same Params, platform argument and external collaborators, returns the
result of the first reconciliation unchanged: `ReconcileDeployment` succeeds on
every prior deployment and its result is a fixed point of `ReconcileDeployment`.
The collaborators are taken under their contracts: the availability prober
rewrites the init containers only, idempotently; the scheduling overlay writes
its annotations and its priority class name into the pod template, rewrites the
fields the reconciler assigns independently of those, and leaves the rest
alone. -/
theorem reconcileDeployment_idempotent (ext : Ext) (hI : ProberInitOnly ext)
    (hO : OverlayPolicy ext) (dep : Deployment) (params : Params)
    (platformType : PlatformType) :
    ∃ r : Deployment,
      ReconcileDeployment ext dep params platformType = some r ∧
      ReconcileDeployment ext r params platformType = some r := by
  have hP := proberInitOnly_frame ext hI
  refine ⟨ext.ApplyTo params.DeploymentConfig (assembled ext dep params platformType),
    ReconcileDeployment_eq ext hP dep params platformType, ?_⟩
  rw [ReconcileDeployment_eq ext hP, overlay_absorbs_reassembly ext hI hO]

theorem policyExt_proberInitOnly : ProberInitOnly policyExt := by
  intro url image opts
  refine ⟨keepingInject url image opts, ?_, fun _ => rfl⟩
  intro cs
  have hname : (proberContainer url image opts).Name = "availability-prober" := rfl
  cases cs with
  | nil => simp [keepingInject, hname]
  | cons first rest =>
    by_cases h : first.Name = "availability-prober" <;> simp [keepingInject, h, hname]

theorem policyExt_overlayPolicy : OverlayPolicy policyExt :=
  fun dc =>
    ⟨[("hypershift.openshift.io/restart-date", "2024-01-01T00:00:00Z")],
      some dc.Scheduling.PriorityClass,
      fun _ => ⟨rfl, rfl, rfl, rfl, rfl, rfl, rfl, fun _ _ => ⟨rfl, rfl, rfl, rfl, rfl, rfl, rfl⟩⟩⟩

theorem reconcileDeployment_idempotent_witness :
    ProberInitOnly policyExt ∧ OverlayPolicy policyExt ∧
    (∃ a : Deployment,
      assembleDeployment policyExt legacyDeployment policyParams "AWS" = some a ∧
      policyExt.ApplyTo policyParams.DeploymentConfig a ≠ a ∧
      (policyExt.ApplyTo policyParams.DeploymentConfig a).Spec.Template.Spec.PriorityClassName =
        "hypershift-control-plane") ∧
    ∃ r : Deployment,
      ReconcileDeployment policyExt legacyDeployment policyParams "AWS" = some r ∧
      ReconcileDeployment policyExt r policyParams "AWS" = some r :=
  ⟨policyExt_proberInitOnly, policyExt_overlayPolicy,
    ⟨_, assembleDeployment_eq policyExt (proberInitOnly_frame policyExt policyExt_proberInitOnly)
      legacyDeployment policyParams "AWS", by decide, by decide⟩,
    reconcileDeployment_idempotent policyExt policyExt_proberInitOnly policyExt_overlayPolicy
      legacyDeployment policyParams "AWS"⟩

/-! ## The later stages in closed form -/

theorem ReconcilePodMonitor_eq (ext : Ext) (pm : PodMonitor) (clusterID : String)
    (metricsSet : MetricsSet) :
    ReconcilePodMonitor ext pm clusterID metricsSet =
      some (reconciledPodMonitor ext pm clusterID metricsSet) :=
  rfl

theorem paramsBeforeDefaults_eq (ext : Ext) (hcp : HostedControlPlane)
    (hAz : ext.IsAroHCP = true → hcp.Spec.Platform.Azure ≠ none) (version : String)
    (releaseImageProvider userReleaseImageProvider : ReleaseImageProvider)
    (platform : PlatformType) :
    paramsBeforeDefaults ext hcp version releaseImageProvider userReleaseImageProvider platform =
      some (derivedParams ext hcp version releaseImageProvider userReleaseImageProvider
        platform) := by
  unfold paramsBeforeDefaults derivedParams derivedPriorityClass
  by_cases haro : ext.IsAroHCP = true
  · cases hazure : hcp.Spec.Platform.Azure with
    | none => exact absurd hazure (hAz haro)
    | some azure =>
      cases hcfg : hcp.Spec.Configuration <;>
        by_cases hann : GoMap.index hcp.ObjectMeta.Annotations ext.ControlPlanePriorityClass = "" <;>
        simp [haro, hann]
  · cases hcfg : hcp.Spec.Configuration <;>
      by_cases hann : GoMap.index hcp.ObjectMeta.Annotations ext.ControlPlanePriorityClass = "" <;>
      simp [haro, hann]

theorem NewParams_eq (ext : Ext) (hcp : HostedControlPlane)
    (hAz : ext.IsAroHCP = true → hcp.Spec.Platform.Azure ≠ none) (version : String)
    (releaseImageProvider userReleaseImageProvider : ReleaseImageProvider)
    (setDefaultSecurityContext : Bool) (platform : PlatformType) :
    NewParams ext hcp version releaseImageProvider userReleaseImageProvider
        setDefaultSecurityContext platform =
      some
        { derivedParams ext hcp version releaseImageProvider userReleaseImageProvider platform with
          DeploymentConfig :=
            defaultedDeploymentConfig ext hcp setDefaultSecurityContext
              (derivedParams ext hcp version releaseImageProvider userReleaseImageProvider
                platform).DeploymentConfig } := by
  unfold NewParams
  rw [paramsBeforeDefaults_eq ext hcp hAz]
  rfl

theorem sampleExt_stampFrame : StampFrame sampleExt :=
  fun _ _ => ⟨rfl, rfl, rfl, rfl⟩

/-! ## The scrape endpoint (C11, C12) -/

/-- C11. For every prior pod monitor, cluster ID and metrics set,
`ReconcilePodMonitor` returns a pod monitor whose selector match labels are
exactly `name = ingress-operator`, whose namespace selector names exactly the pod
monitor's own namespace, and whose endpoint list has exactly one element: the
cluster-ID helper applied to the endpoint with interval `60s`, port `metrics`,
path `/metrics`, scheme `http` and the relabelling rules of the metrics set; the
helper keeping these four fields, the one element carries them. -/
theorem reconcilePodMonitor_shape (ext : Ext) (hStamp : StampFrame ext) (pm : PodMonitor)
    (clusterID : String) (metricsSet : MetricsSet) :
    ∃ (out : PodMonitor) (e : PodMetricsEndpoint),
      ReconcilePodMonitor ext pm clusterID metricsSet = some out ∧
      out.Spec.Selector.MatchLabels = GoMap.lit [("name", "ingress-operator")] ∧
      out.Spec.NamespaceSelector.MatchNames = [pm.Namespace] ∧
      out.Spec.PodMetricsEndpoints = [e] ∧
      e =
        ext.ApplyClusterIDLabelToPodMonitor
          { Interval := "60s"
            Port := "metrics"
            Path := "/metrics"
            Scheme := "http"
            MetricRelabelConfigs := ext.RegistryOperatorRelabelConfigs metricsSet }
          clusterID ∧
      e.Interval = "60s" ∧ e.Port = "metrics" ∧ e.Path = "/metrics" ∧ e.Scheme = "http" := by
  obtain ⟨h1, h2, h3, h4⟩ := hStamp (scrapeEndpoint ext metricsSet) clusterID
  exact ⟨reconciledPodMonitor ext pm clusterID metricsSet,
    ext.ApplyClusterIDLabelToPodMonitor (scrapeEndpoint ext metricsSet) clusterID,
    ReconcilePodMonitor_eq ext pm clusterID metricsSet, rfl, rfl, rfl, rfl, h1, h2, h3, h4⟩

theorem reconcilePodMonitor_shape_witness :
    StampFrame sampleExt ∧
    ∃ (out : PodMonitor) (e : PodMetricsEndpoint),
      ReconcilePodMonitor sampleExt strayPodMonitor "abc123" "Telemetry" = some out ∧
      out.Spec.Selector.MatchLabels = GoMap.lit [("name", "ingress-operator")] ∧
      out.Spec.NamespaceSelector.MatchNames = ["clusters-cluster"] ∧
      out.Spec.PodMetricsEndpoints = [e] ∧
      e.Interval = "60s" ∧ e.Port = "metrics" ∧ e.Path = "/metrics" ∧ e.Scheme = "http" :=
  ⟨sampleExt_stampFrame,
    (reconcilePodMonitor_shape sampleExt sampleExt_stampFrame strayPodMonitor "abc123"
      "Telemetry").elim
      fun out h => h.elim fun e he =>
        ⟨out, e, he.1, he.2.1, he.2.2.1, he.2.2.2.1, he.2.2.2.2.2⟩⟩

/-- C12 as stated fails: two prior pod monitors with the same name and
namespace are reconciled to different specs, because the match expressions and
the job label of the prior spec survive. -/
theorem podMonitor_recompute_counterexample :
    strayPodMonitor.Name = freshPodMonitor.Name ∧
    strayPodMonitor.Namespace = freshPodMonitor.Namespace ∧
    ∃ o1 o2 : PodMonitor,
      ReconcilePodMonitor sampleExt strayPodMonitor "abc123" "Telemetry" = some o1 ∧
      ReconcilePodMonitor sampleExt freshPodMonitor "abc123" "Telemetry" = some o2 ∧
      o1.Spec ≠ o2.Spec ∧
      o1.Spec.Selector.MatchExpressions =
        [{ Key := "tier", Operator := "In", Values := ["canary"] }] ∧
      o1.Spec.JobLabel = "old-job" :=
  ⟨rfl, rfl, _, _, ReconcilePodMonitor_eq sampleExt strayPodMonitor "abc123" "Telemetry",
    ReconcilePodMonitor_eq sampleExt freshPodMonitor "abc123" "Telemetry",
    by decide, by decide, by decide⟩

/-- C12, as the code has it. For every cluster ID and metrics set and any two
prior pod monitors of the same namespace, the two reconciled specs agree on
what the reconciler assigns: the selector match labels, the namespace selector
and the endpoint list, none of which depends on the prior spec. What it does not
assign is kept from the prior spec: the selector's match expressions, the job
label and the pod target labels; so the two specs are equal when the two priors
agree on these. -/
theorem podMonitor_assigned_fields_recomputed (ext : Ext) (pm1 pm2 : PodMonitor)
    (clusterID : String) (metricsSet : MetricsSet) (hns : pm1.Namespace = pm2.Namespace) :
    ∃ o1 o2 : PodMonitor,
      ReconcilePodMonitor ext pm1 clusterID metricsSet = some o1 ∧
      ReconcilePodMonitor ext pm2 clusterID metricsSet = some o2 ∧
      o1.Spec.Selector.MatchLabels = o2.Spec.Selector.MatchLabels ∧
      o1.Spec.NamespaceSelector = o2.Spec.NamespaceSelector ∧
      o1.Spec.PodMetricsEndpoints = o2.Spec.PodMetricsEndpoints ∧
      o1.Spec.Selector.MatchExpressions = pm1.Spec.Selector.MatchExpressions ∧
      o1.Spec.JobLabel = pm1.Spec.JobLabel ∧
      o1.Spec.PodTargetLabels = pm1.Spec.PodTargetLabels ∧
      o2.Spec.Selector.MatchExpressions = pm2.Spec.Selector.MatchExpressions ∧
      o2.Spec.JobLabel = pm2.Spec.JobLabel ∧
      o2.Spec.PodTargetLabels = pm2.Spec.PodTargetLabels ∧
      (pm1.Spec.Selector.MatchExpressions = pm2.Spec.Selector.MatchExpressions →
        pm1.Spec.JobLabel = pm2.Spec.JobLabel →
        pm1.Spec.PodTargetLabels = pm2.Spec.PodTargetLabels → o1.Spec = o2.Spec) := by
  have hsel : (reconciledPodMonitor ext pm1 clusterID metricsSet).Spec.NamespaceSelector =
      (reconciledPodMonitor ext pm2 clusterID metricsSet).Spec.NamespaceSelector := by
    show ({ MatchNames := [pm1.Namespace] } : NamespaceSelector) = { MatchNames := [pm2.Namespace] }
    rw [hns]
  refine ⟨reconciledPodMonitor ext pm1 clusterID metricsSet,
    reconciledPodMonitor ext pm2 clusterID metricsSet,
    ReconcilePodMonitor_eq ext pm1 clusterID metricsSet,
    ReconcilePodMonitor_eq ext pm2 clusterID metricsSet, rfl, hsel, rfl, rfl, rfl, rfl, rfl, rfl,
    rfl, ?_⟩
  intro hme hjob hptl
  refine PodMonitorSpec.ext hjob hptl rfl ?_ hsel
  exact congrArg (LabelSelector.mk (GoMap.lit [("name", operatorName)])) hme

theorem podMonitor_assigned_fields_recomputed_witness :
    strayPodMonitor.Namespace = freshPodMonitor.Namespace ∧
    ∃ o1 o2 : PodMonitor,
      ReconcilePodMonitor sampleExt strayPodMonitor "abc123" "Telemetry" = some o1 ∧
      ReconcilePodMonitor sampleExt freshPodMonitor "abc123" "Telemetry" = some o2 ∧
      o1.Spec.Selector.MatchLabels = o2.Spec.Selector.MatchLabels ∧
      o1.Spec.NamespaceSelector = o2.Spec.NamespaceSelector ∧
      o1.Spec.PodMetricsEndpoints = o2.Spec.PodMetricsEndpoints :=
  ⟨rfl,
    (podMonitor_assigned_fields_recomputed sampleExt strayPodMonitor freshPodMonitor "abc123"
      "Telemetry" rfl).elim
      fun o1 h1 => h1.elim fun o2 h =>
        ⟨o1, o2, h.1, h.2.1, h.2.2.1, h.2.2.2.1, h.2.2.2.2.1⟩⟩

/-! ## Parameter derivation (C13, C14, C15, C17) -/

theorem assembled_credentials_irrelevant (ext : Ext) (haro : ext.IsAroHCP = false)
    (dep : Deployment) (params : Params) (path : String) (platformType : PlatformType) :
    assembled ext dep { params with AzureCredentialsFilepath := path } platformType =
      assembled ext dep params platformType := by
  have hc : assembledContainers ext dep { params with AzureCredentialsFilepath := path } =
      assembledContainers ext dep params := by
    unfold assembledContainers assembledPrimary
    simp only [haro, Bool.false_eq_true, if_false]
    rfl
  have hpod : (assembled ext dep { params with AzureCredentialsFilepath := path }
      platformType).Spec.Template.Spec = (assembled ext dep params platformType).Spec.Template.Spec := by
    show ({ availabilityProber ext { params with AzureCredentialsFilepath := path } platformType
          (specBeforeProber ext dep { params with AzureCredentialsFilepath := path }) with
        Containers := assembledContainers ext dep { params with AzureCredentialsFilepath := path }
        Volumes := assembledVolumes ext { params with AzureCredentialsFilepath := path } } :
      PodSpec) = _
    rw [hc]
    rfl
  exact Deployment.ext rfl rfl
    (DeploymentSpec.ext rfl rfl (PodTemplateSpec.ext rfl rfl hpod) (DeploymentStrategy.ext rfl rfl))

/-- C13. Off the managed-identity platform (the check `IsAroHCP` false), for
every prior deployment and platform argument, two Params that differ only in
`AzureCredentialsFilepath` are reconciled to the same deployment; and `NewParams`
returns parameters whose `AzureCredentialsFilepath` is empty. -/
theorem credentials_path_ignored (ext : Ext) (hP : ProberFrame ext)
    (haro : ext.IsAroHCP = false) (dep : Deployment) (params : Params) (path : String)
    (platformType : PlatformType) (hcp : HostedControlPlane) (version : String)
    (releaseImageProvider userReleaseImageProvider : ReleaseImageProvider)
    (setDefaultSecurityContext : Bool) (platform : PlatformType) :
    (∃ r : Deployment,
      ReconcileDeployment ext dep params platformType = some r ∧
      ReconcileDeployment ext dep { params with AzureCredentialsFilepath := path } platformType =
        some r) ∧
    ∃ p : Params,
      NewParams ext hcp version releaseImageProvider userReleaseImageProvider
        setDefaultSecurityContext platform = some p ∧
      p.AzureCredentialsFilepath = "" := by
  have hAz : ext.IsAroHCP = true → hcp.Spec.Platform.Azure ≠ none := by
    intro h
    rw [haro] at h
    exact absurd h (by decide)
  refine ⟨⟨_, ReconcileDeployment_eq ext hP dep params platformType, ?_⟩,
    _, NewParams_eq ext hcp hAz version releaseImageProvider userReleaseImageProvider
      setDefaultSecurityContext platform, ?_⟩
  · rw [ReconcileDeployment_eq ext hP, assembled_credentials_irrelevant ext haro]
  · show (derivedParams ext hcp version releaseImageProvider userReleaseImageProvider
      platform).AzureCredentialsFilepath = ""
    simp [derivedParams, haro]

theorem credentials_path_ignored_witness :
    ProberFrame sampleExt ∧ sampleExt.IsAroHCP = false ∧
    (∃ r : Deployment,
      ReconcileDeployment sampleExt resizedDeployment sampleParams "AWS" = some r ∧
      ReconcileDeployment sampleExt resizedDeployment
        { sampleParams with AzureCredentialsFilepath := "ingress-creds" } "AWS" = some r) ∧
    ∃ p : Params,
      NewParams sampleExt proxiedControlPlane "4.17.0" (sampleProvider "release")
        (sampleProvider "user") true "AWS" = some p ∧
      p.AzureCredentialsFilepath = "" :=
  ⟨sampleExt_proberFrame, rfl,
    credentials_path_ignored sampleExt sampleExt_proberFrame rfl resizedDeployment sampleParams
      "ingress-creds" "AWS" proxiedControlPlane "4.17.0" (sampleProvider "release")
      (sampleProvider "user") true "AWS"⟩

/-- C14 as stated fails: for a hosted control plane whose configuration block
is present but whose `Proxy` is absent, `NewParams` leaves `ProxyConfig` nil but
sets `NoProxy` to the value of the no-proxy policy function, which is not the
empty string. -/
theorem proxy_derivation_counterexample :
    proxylessControlPlane.Spec.Configuration = some { Proxy := none } ∧
    ∃ p : Params,
      NewParams sampleExt proxylessControlPlane "4.17.0" (sampleProvider "release")
        (sampleProvider "user") true "AWS" = some p ∧
      p.ProxyConfig = none ∧
      p.NoProxy = ".cluster.local,.svc,127.0.0.1,localhost" ∧
      p.NoProxy ≠ "" :=
  ⟨rfl, _,
    NewParams_eq sampleExt proxylessControlPlane (fun h => absurd h (by decide)) "4.17.0"
      (sampleProvider "release") (sampleProvider "user") true "AWS",
    rfl, rfl, by decide⟩

/-- C14, as the code has it. `NewParams` keys the proxy derivation on the
configuration block: when the block is present, `ProxyConfig` is the block's
`Proxy` (nil when that is absent) and `NoProxy` is the value of the no-proxy
policy function; when the block is absent, `ProxyConfig` is nil and `NoProxy` the
empty string. -/
theorem proxy_derivation (ext : Ext) (hcp : HostedControlPlane)
    (hAz : ext.IsAroHCP = true → hcp.Spec.Platform.Azure ≠ none) (version : String)
    (releaseImageProvider userReleaseImageProvider : ReleaseImageProvider)
    (setDefaultSecurityContext : Bool) (platform : PlatformType) :
    ∃ p : Params,
      NewParams ext hcp version releaseImageProvider userReleaseImageProvider
        setDefaultSecurityContext platform = some p ∧
      (∀ configuration : ClusterConfiguration, hcp.Spec.Configuration = some configuration →
        p.ProxyConfig = configuration.Proxy ∧ p.NoProxy = ext.DefaultNoProxy hcp) ∧
      (hcp.Spec.Configuration = none → p.ProxyConfig = none ∧ p.NoProxy = "") := by
  refine ⟨_, NewParams_eq ext hcp hAz version releaseImageProvider userReleaseImageProvider
    setDefaultSecurityContext platform, ?_, ?_⟩
  · intro configuration hcfg
    show (derivedParams ext hcp version releaseImageProvider userReleaseImageProvider
        platform).ProxyConfig = _ ∧
      (derivedParams ext hcp version releaseImageProvider userReleaseImageProvider
        platform).NoProxy = _
    simp [derivedParams, hcfg]
  · intro hcfg
    show (derivedParams ext hcp version releaseImageProvider userReleaseImageProvider
        platform).ProxyConfig = _ ∧
      (derivedParams ext hcp version releaseImageProvider userReleaseImageProvider
        platform).NoProxy = _
    simp [derivedParams, hcfg]

theorem proxy_derivation_witness :
    (sampleAroExt.IsAroHCP = true → proxiedControlPlane.Spec.Platform.Azure ≠ none) ∧
    ∃ p : Params,
      NewParams sampleAroExt proxiedControlPlane "4.17.0" (sampleProvider "release")
        (sampleProvider "user") true "Azure" = some p ∧
      p.ProxyConfig = some { HTTPProxy := "http://p:3128", HTTPSProxy := "https://p:3129" } ∧
      p.NoProxy = sampleAroExt.DefaultNoProxy proxiedControlPlane :=
  ⟨fun _ => by decide,
    (proxy_derivation sampleAroExt proxiedControlPlane (fun _ => by decide) "4.17.0"
      (sampleProvider "release") (sampleProvider "user") true "Azure").elim
      fun p h => ⟨p, h.1, (h.2.1 _ rfl).1, (h.2.1 _ rfl).2⟩⟩

/-- C15. For every hosted control plane and every pair of image providers,
`NewParams` takes the router image and the canary image from the user-facing
release provider and the operator, token-minter, proxy-sidecar and
availability-prober images from the release provider; so another user-facing
provider leaves the latter four unchanged, and another release provider leaves
the router and canary images unchanged. -/
theorem image_catalogs (ext : Ext) (hcp : HostedControlPlane)
    (hAz : ext.IsAroHCP = true → hcp.Spec.Platform.Azure ≠ none) (version : String)
    (release userRelease release2 userRelease2 : ReleaseImageProvider)
    (setDefaultSecurityContext : Bool) (platform : PlatformType) :
    ∃ p pUser pRelease : Params,
      NewParams ext hcp version release userRelease setDefaultSecurityContext platform = some p ∧
      NewParams ext hcp version release userRelease2 setDefaultSecurityContext platform =
        some pUser ∧
      NewParams ext hcp version release2 userRelease setDefaultSecurityContext platform =
        some pRelease ∧
      p.HAProxyRouterImage = userRelease "haproxy-router" ∧
      p.IngressCanaryImage = userRelease "cluster-ingress-operator" ∧
      p.IngressOperatorImage = release "cluster-ingress-operator" ∧
      p.TokenMinterImage = release "token-minter" ∧
      p.ProxyImage = release ext.CPOImageName ∧
      p.AvailabilityProberImage = release ext.AvailabilityProberImageName ∧
      pUser.IngressOperatorImage = p.IngressOperatorImage ∧
      pUser.TokenMinterImage = p.TokenMinterImage ∧
      pUser.ProxyImage = p.ProxyImage ∧
      pUser.AvailabilityProberImage = p.AvailabilityProberImage ∧
      pRelease.HAProxyRouterImage = p.HAProxyRouterImage ∧
      pRelease.IngressCanaryImage = p.IngressCanaryImage :=
  ⟨_, _, _,
    NewParams_eq ext hcp hAz version release userRelease setDefaultSecurityContext platform,
    NewParams_eq ext hcp hAz version release userRelease2 setDefaultSecurityContext platform,
    NewParams_eq ext hcp hAz version release2 userRelease setDefaultSecurityContext platform,
    rfl, rfl, rfl, rfl, rfl, rfl, rfl, rfl, rfl, rfl, rfl, rfl⟩

theorem image_catalogs_witness :
    (sampleAroExt.IsAroHCP = true → proxiedControlPlane.Spec.Platform.Azure ≠ none) ∧
    ∃ p : Params,
      NewParams sampleAroExt proxiedControlPlane "4.17.0" (sampleProvider "release")
        (sampleProvider "user") true "Azure" = some p ∧
      p.HAProxyRouterImage = "user/haproxy-router" ∧
      p.IngressCanaryImage = "user/cluster-ingress-operator" ∧
      p.IngressOperatorImage = "release/cluster-ingress-operator" ∧
      p.TokenMinterImage = "release/token-minter" ∧
      p.ProxyImage = "release/controlplane-operator" ∧
      p.AvailabilityProberImage = "release/availability-prober" :=
  ⟨fun _ => by decide,
    (image_catalogs sampleAroExt proxiedControlPlane (fun _ => by decide) "4.17.0"
      (sampleProvider "release") (sampleProvider "user") (sampleProvider "other")
      (sampleProvider "other") true "Azure").elim
      fun p h1 => h1.elim fun _ h2 => h2.elim fun _ h =>
        ⟨p, h.1, h.2.2.2.1.trans (by decide), h.2.2.2.2.1.trans (by decide),
          h.2.2.2.2.2.1.trans (by decide), h.2.2.2.2.2.2.1.trans (by decide),
          h.2.2.2.2.2.2.2.1.trans (by decide), h.2.2.2.2.2.2.2.2.1.trans (by decide)⟩⟩

/-- C17. For every hosted control plane, the priority class `NewParams` has
written into `DeploymentConfig.Scheduling.PriorityClass` when it hands the
deployment config to its defaulting methods is the value of the control-plane
priority-class annotation when that annotation is present and not empty, and the
default priority class when the annotation is absent or empty; the parameters
`NewParams` returns are these with the deployment config defaulted. -/
theorem priority_class_derivation (ext : Ext) (hcp : HostedControlPlane)
    (hAz : ext.IsAroHCP = true → hcp.Spec.Platform.Azure ≠ none) (version : String)
    (releaseImageProvider userReleaseImageProvider : ReleaseImageProvider)
    (setDefaultSecurityContext : Bool) (platform : PlatformType) :
    ∃ p0 : Params,
      paramsBeforeDefaults ext hcp version releaseImageProvider userReleaseImageProvider
        platform = some p0 ∧
      NewParams ext hcp version releaseImageProvider userReleaseImageProvider
          setDefaultSecurityContext platform =
        some
          { p0 with
            DeploymentConfig :=
              defaultedDeploymentConfig ext hcp setDefaultSecurityContext p0.DeploymentConfig } ∧
      (∀ v : String, hcp.ObjectMeta.Annotations.get ext.ControlPlanePriorityClass = some v →
        v ≠ "" → p0.DeploymentConfig.Scheduling.PriorityClass = v) ∧
      (hcp.ObjectMeta.Annotations.get ext.ControlPlanePriorityClass = some "" →
        p0.DeploymentConfig.Scheduling.PriorityClass = ext.DefaultPriorityClass) ∧
      (hcp.ObjectMeta.Annotations.get ext.ControlPlanePriorityClass = none →
        p0.DeploymentConfig.Scheduling.PriorityClass = ext.DefaultPriorityClass) := by
  refine ⟨_, paramsBeforeDefaults_eq ext hcp hAz version releaseImageProvider
    userReleaseImageProvider platform,
    NewParams_eq ext hcp hAz version releaseImageProvider userReleaseImageProvider
      setDefaultSecurityContext platform, ?_, ?_, ?_⟩
  · intro v hv hne
    show derivedPriorityClass ext hcp = v
    simp [derivedPriorityClass, GoMap.index, hv, hne]
  · intro hv
    show derivedPriorityClass ext hcp = _
    simp [derivedPriorityClass, GoMap.index, hv]
  · intro hv
    show derivedPriorityClass ext hcp = _
    simp [derivedPriorityClass, GoMap.index, hv]

theorem priority_class_derivation_witness :
    (sampleAroExt.IsAroHCP = true → proxiedControlPlane.Spec.Platform.Azure ≠ none) ∧
    proxiedControlPlane.ObjectMeta.Annotations.get sampleAroExt.ControlPlanePriorityClass =
      some "custom-priority" ∧
    ∃ p0 : Params,
      paramsBeforeDefaults sampleAroExt proxiedControlPlane "4.17.0" (sampleProvider "release")
        (sampleProvider "user") "Azure" = some p0 ∧
      p0.DeploymentConfig.Scheduling.PriorityClass = "custom-priority" :=
  ⟨fun _ => by decide, by decide,
    (priority_class_derivation sampleAroExt proxiedControlPlane (fun _ => by decide) "4.17.0"
      (sampleProvider "release") (sampleProvider "user") true "Azure").elim
      fun p0 h => ⟨p0, h.1, h.2.2.1 "custom-priority" (by decide) (by decide)⟩⟩

/-! ## Base volumes (C16) -/

/-- C16. For every prior deployment, Params and platform argument, the volume
list of the assembled deployment starts with exactly the five volumes
`ingress-operator-kubeconfig` (secret), `admin-kubeconfig` (secret),
`konnectivity-proxy-cert` (secret), `konnectivity-proxy-ca` (config map) and
`managed-trust-bundle` (config map, optional), each name occurring exactly once
in the whole list; off AWS and off the managed-identity platform the volume list
is exactly these five. -/
theorem five_base_volumes (ext : Ext) (hP : ProberFrame ext)
    (hAz : ext.IsAroHCP = true → AzureHelperContract ext) (dep : Deployment) (params : Params)
    (platformType : PlatformType) :
    ∃ a : Deployment,
      assembleDeployment ext dep params platformType = some a ∧
      ReconcileDeployment ext dep params platformType =
        some (ext.ApplyTo params.DeploymentConfig a) ∧
      a.Spec.Template.Spec.Volumes.take 5 =
        [ { Name := "ingress-operator-kubeconfig",
            VolumeSource :=
              { Secret := some
                  { SecretName := ext.IngressOperatorKubeconfigName, DefaultMode := some 0o640 } } },
          { Name := "admin-kubeconfig",
            VolumeSource :=
              { Secret := some
                  { SecretName := "service-network-admin-kubeconfig", DefaultMode := some 0o640 } } },
          { Name := "konnectivity-proxy-cert",
            VolumeSource :=
              { Secret := some
                  { SecretName := ext.KonnectivityClientSecretName, DefaultMode := some 0o640 } } },
          { Name := "konnectivity-proxy-ca",
            VolumeSource :=
              { ConfigMap := some
                  { Name := ext.KonnectivityCAConfigMapName, DefaultMode := some 0o640 } } },
          { Name := "managed-trust-bundle",
            VolumeSource :=
              { ConfigMap := some
                  { Name := ext.TrustedCABundleConfigMapName
                    DefaultMode := some 0o640
                    Items := [{ Key := ext.UserCABundleMapKey, Path := "managed-trust-bundle.crt" }]
                    Optional := some true } } } ] ∧
      (∀ n ∈ ["ingress-operator-kubeconfig", "admin-kubeconfig", "konnectivity-proxy-cert",
          "konnectivity-proxy-ca", "managed-trust-bundle"], volumeCount n a = 1) ∧
      (params.Platform ≠ ext.AWSPlatform → ext.IsAroHCP = false →
        a.Spec.Template.Spec.Volumes = a.Spec.Template.Spec.Volumes.take 5) := by
  have key : ∃ z : String, z ∉ reconcilerVolumeNames ∧
      (if ext.IsAroHCP = true then [(azureVolume ext).Name] else []) =
        (if ext.IsAroHCP = true then [z] else []) := by
    by_cases haro : ext.IsAroHCP = true
    · obtain ⟨-, hv, hz⟩ := hAz haro
      exact ⟨_, hz, by rw [hv]⟩
    · exact ⟨"", by decide, by simp [haro]⟩
  obtain ⟨z, hz, hv⟩ := key
  have hnd := volumeNames_nodup (params.Platform = ext.AWSPlatform) (ext.IsAroHCP = true) z hz
  have htake : (assembledVolumes ext params).take 5 = baseVolumes ext := by
    unfold assembledVolumes volumesBeforeProber baseVolumes
    simp
  refine ⟨assembled ext dep params platformType,
    assembleDeployment_eq ext hP dep params platformType,
    ReconcileDeployment_eq ext hP dep params platformType, htake, ?_, ?_⟩
  · intro n hn
    rw [volumeCount_eq_count, volumeNames_assembled, hv]
    apply List.count_eq_one_of_mem hnd
    simp only [List.append_assoc, List.mem_append]
    exact Or.inl hn
  · intro haws haro
    show assembledVolumes ext params = (assembledVolumes ext params).take 5
    rw [htake]
    simp [assembledVolumes, volumesBeforeProber, haws, haro]

theorem five_base_volumes_witness :
    ProberFrame sampleExt ∧
    (sampleExt.IsAroHCP = true → AzureHelperContract sampleExt) ∧
    ∃ a : Deployment,
      assembleDeployment sampleExt {} { sampleParams with Platform := "None" } "None" = some a ∧
      a.Spec.Template.Spec.Volumes.map (fun v => v.Name) =
        ["ingress-operator-kubeconfig", "admin-kubeconfig", "konnectivity-proxy-cert",
          "konnectivity-proxy-ca", "managed-trust-bundle"] :=
  ⟨sampleExt_proberFrame, fun h => absurd h (by decide),
    (five_base_volumes sampleExt sampleExt_proberFrame (fun h => absurd h (by decide)) {}
      { sampleParams with Platform := "None" } "None").elim
      fun a h => ⟨a, h.1, by
        rw [h.2.2.2.2 (by decide) rfl, h.2.2.1]
        rfl⟩⟩

/-! ## The primary container and the proxy (C18) -/

/-- C18. For every Params the one container named `ingress-operator` of the
assembled deployment has `HTTP_PROXY` and `HTTPS_PROXY` equal to
`http://127.0.0.1:8090`, `NO_PROXY` equal to the name of the in-cluster API
service, and a command that ends in `--metrics-listen-addr 0.0.0.0:60000`; and
Params that differ only in `ProxyConfig` and `NoProxy` give the same primary
container. -/
theorem primary_container_uses_loopback_proxy (ext : Ext) (hP : ProberFrame ext)
    (dep : Deployment) (params : Params) (platformType : PlatformType)
    (proxyConfig : Option ProxySpec) (noProxy : String) :
    ∃ (a a2 : Deployment) (main : Container),
      assembleDeployment ext dep params platformType = some a ∧
      ReconcileDeployment ext dep params platformType =
        some (ext.ApplyTo params.DeploymentConfig a) ∧
      assembleDeployment ext dep { params with ProxyConfig := proxyConfig, NoProxy := noProxy }
        platformType = some a2 ∧
      containersNamed "ingress-operator" a = [main] ∧
      containersNamed "ingress-operator" a2 = [main] ∧
      main.Env.find? (fun e => decide (e.Name = "HTTP_PROXY")) =
        some { Name := "HTTP_PROXY", Value := "http://127.0.0.1:8090" } ∧
      main.Env.find? (fun e => decide (e.Name = "HTTPS_PROXY")) =
        some { Name := "HTTPS_PROXY", Value := "http://127.0.0.1:8090" } ∧
      main.Env.find? (fun e => decide (e.Name = "NO_PROXY")) =
        some { Name := "NO_PROXY", Value := ext.KubeAPIServerServiceName } ∧
      main.Command =
        [ "ingress-operator", "start", "--namespace", "openshift-ingress-operator", "--image",
          "$(IMAGE)", "--canary-image", "$(CANARY_IMAGE)", "--release-version",
          "$(RELEASE_VERSION)", "--metrics-listen-addr", "0.0.0.0:60000" ] := by
  have hurl : loopbackProxyURL konnectivityProxyPort = "http://127.0.0.1:8090" := by decide
  have haddr : metricsListenAddr ingressOperatorMetricsPort = "0.0.0.0:60000" := by decide
  refine ⟨assembled ext dep params platformType,
    assembled ext dep { params with ProxyConfig := proxyConfig, NoProxy := noProxy } platformType,
    assembledPrimary ext dep params, assembleDeployment_eq ext hP dep params platformType,
    ReconcileDeployment_eq ext hP dep params platformType,
    assembleDeployment_eq ext hP dep _ platformType,
    containersNamed_main ext dep params platformType,
    containersNamed_main ext dep _ platformType, ?_, ?_, ?_, ?_⟩
  · simp [assembledPrimary, primaryContainer, List.find?_cons, hurl]
  · simp [assembledPrimary, primaryContainer, List.find?_cons, hurl]
  · simp [assembledPrimary, primaryContainer, List.find?_cons]
  · simp [assembledPrimary, primaryContainer, haddr]

theorem primary_container_uses_loopback_proxy_witness :
    ProberFrame sampleExt ∧
    ∃ (a a2 : Deployment) (main : Container),
      assembleDeployment sampleExt {} sampleParams "AWS" = some a ∧
      assembleDeployment sampleExt {} { sampleParams with ProxyConfig := none, NoProxy := "" }
        "AWS" = some a2 ∧
      containersNamed "ingress-operator" a = [main] ∧
      containersNamed "ingress-operator" a2 = [main] ∧
      main.Env.find? (fun e => decide (e.Name = "HTTP_PROXY")) =
        some { Name := "HTTP_PROXY", Value := "http://127.0.0.1:8090" } :=
  ⟨sampleExt_proberFrame,
    (primary_container_uses_loopback_proxy sampleExt sampleExt_proberFrame {} sampleParams "AWS"
      none "").elim
      fun a h1 => h1.elim fun a2 h2 => h2.elim fun main h =>
        ⟨a, a2, main, h.1, h.2.2.1, h.2.2.2.1, h.2.2.2.2.1, h.2.2.2.2.2.1⟩⟩

/-! ## Totality (C19) -/

/-- C19. For every prior deployment (the empty one, with nil collections,
included), every Params and every platform argument, `ReconcileDeployment`
returns a deployment: the write to the annotation map follows the nil guard and
never hits a nil map, the access to `Containers[0]` in the AWS branch follows the
assignment of the two containers, and the accesses in the managed-identity branch
find the containers the availability prober left in place. -/
theorem reconcileDeployment_total (ext : Ext) (hP : ProberFrame ext) (dep : Deployment)
    (params : Params) (platformType : PlatformType) :
    (∃ r : Deployment, ReconcileDeployment ext dep params platformType = some r) ∧
    (∃ annotations : GoMap String,
      (GoMap.orEmpty dep.Spec.Template.Annotations).set managementAnnotationKey
        managementAnnotationValue = some annotations) ∧
    (∃ spec : PodSpec,
      awsExtension ext params
        { dep.Spec.Template.Spec with
          AutomountServiceAccountToken := some false
          Containers :=
            [primaryContainer ext params (ingressOpResources dep)] ++
              [ingressOperatorKonnectivityProxyContainer ext params.ProxyImage params.ProxyConfig
                params.NoProxy]
          Volumes := baseVolumes ext } = some spec ∧
      2 ≤ spec.Containers.length ∧
      ∃ final : PodSpec,
        azureExtension ext params (availabilityProber ext params platformType spec) =
          some final) :=
  ⟨⟨_, ReconcileDeployment_eq ext hP dep params platformType⟩,
    ⟨_, set_orEmpty dep.Spec.Template.Annotations _ _⟩,
    ⟨_, awsExtension_base ext dep params,
      by
        show 2 ≤ (containersBeforeProber ext dep params).length
        unfold containersBeforeProber
        simp,
      _, azureExtension_probed ext hP dep params platformType⟩⟩

theorem reconcileDeployment_total_witness :
    ProberFrame sampleAroExt ∧
    ∃ r : Deployment, ReconcileDeployment sampleAroExt {} sampleParams "AWS" = some r :=
  ⟨sampleAroExt_proberFrame,
    (reconcileDeployment_total sampleAroExt sampleAroExt_proberFrame {} sampleParams "AWS").1⟩

/-! ## The two platform inputs (C20) -/

/-- C20. The token-minter branch is keyed on `Params.Platform` only: for every
prior deployment and Params and any two platform arguments the assembled
container lists are equal and the assembled volume lists are equal, and the two
assembled deployments are equal altogether when the readiness URL of the two
platform arguments is the same; the container `token-minter` is there exactly
when `Params.Platform` is AWS, whatever the platform argument. -/
theorem platformType_reaches_only_prober (ext : Ext) (hP : ProberFrame ext) (dep : Deployment)
    (params : Params) (t1 t2 : PlatformType) :
    ∃ a1 a2 : Deployment,
      assembleDeployment ext dep params t1 = some a1 ∧
      assembleDeployment ext dep params t2 = some a2 ∧
      a1.Spec.Template.Spec.Containers = a2.Spec.Template.Spec.Containers ∧
      a1.Spec.Template.Spec.Volumes = a2.Spec.Template.Spec.Volumes ∧
      (ext.InClusterKASReadyURL t1 = ext.InClusterKASReadyURL t2 → a1 = a2) ∧
      (params.Platform = ext.AWSPlatform →
        containersNamed "token-minter" a1 = [tokenMinterContainer params] ∧
        containersNamed "token-minter" a2 = [tokenMinterContainer params]) ∧
      (params.Platform ≠ ext.AWSPlatform →
        containersNamed "token-minter" a1 = [] ∧ containersNamed "token-minter" a2 = []) := by
  refine ⟨assembled ext dep params t1, assembled ext dep params t2,
    assembleDeployment_eq ext hP dep params t1, assembleDeployment_eq ext hP dep params t2,
    rfl, rfl, ?_, ?_, ?_⟩
  · intro hurl
    have hpod : (assembled ext dep params t1).Spec.Template.Spec =
        (assembled ext dep params t2).Spec.Template.Spec := by
      show ({ availabilityProber ext params t1 (specBeforeProber ext dep params) with
          Containers := assembledContainers ext dep params
          Volumes := assembledVolumes ext params } : PodSpec) =
        { availabilityProber ext params t2 (specBeforeProber ext dep params) with
          Containers := assembledContainers ext dep params
          Volumes := assembledVolumes ext params }
      unfold availabilityProber
      rw [hurl]
    exact Deployment.ext rfl rfl
      (DeploymentSpec.ext rfl rfl (PodTemplateSpec.ext rfl rfl hpod)
        (DeploymentStrategy.ext rfl rfl))
  · intro haws
    rw [containersNamed_tokenMinter, containersNamed_tokenMinter]
    simp [haws]
  · intro haws
    rw [containersNamed_tokenMinter, containersNamed_tokenMinter]
    simp [haws]

theorem platformType_reaches_only_prober_witness :
    ProberFrame sampleExt ∧
    sampleParams.Platform = sampleExt.AWSPlatform ∧
    ∃ a1 a2 : Deployment,
      assembleDeployment sampleExt {} sampleParams "AWS" = some a1 ∧
      assembleDeployment sampleExt {} sampleParams "Azure" = some a2 ∧
      a1.Spec.Template.Spec.Containers = a2.Spec.Template.Spec.Containers ∧
      a1.Spec.Template.Spec.Volumes = a2.Spec.Template.Spec.Volumes ∧
      containersNamed "token-minter" a2 = [tokenMinterContainer sampleParams] :=
  ⟨sampleExt_proberFrame, rfl,
    (platformType_reaches_only_prober sampleExt sampleExt_proberFrame {} sampleParams "AWS"
      "Azure").elim
      fun a1 h1 => h1.elim fun a2 h =>
        ⟨a1, a2, h.1, h.2.1, h.2.2.1, h.2.2.2.1, (h.2.2.2.2.2.1 rfl).2⟩⟩

end IngressOperator
